import Mathlib

/-!
# level-ip: TCP output path and retransmission timer (`src/tcp_output.c`)

A shallow embedding of `tcp_output.c`.  The C functions become Lean functions on an
explicit `State`: the `tcp_sock` they mutate, the timer subsystem's list of live timers,
the write-queue lock, and a chronological `trace` of the calls made to collaborators
(network send, timer arm/release, waiter wake-up, lock, queue insertion).

32-bit sequence arithmetic is `Nat` with an explicit `% 2 ^ 32`.  Return codes are `Int`
(byte counts and small negative error codes, far from the bounds of a C `int`).
-/

set_option autoImplicit false

namespace LevelIp

/-! ## Data model -/

/-- Modelled from the spec: the connection states of `enum tcp_states` (declared in `tcp.h`,
which is not part of the source file).  The names used by `tcp_output.c` are kept. -/
inductive tcp_state where
  | TCP_LISTEN
  | TCP_SYN_SENT
  | TCP_SYN_RECEIVED
  | TCP_ESTABLISHED
  | TCP_FIN_WAIT_1
  | TCP_FIN_WAIT_2
  | TCP_CLOSE
  | TCP_CLOSE_WAIT
  | TCP_CLOSING
  | TCP_LAST_ACK
  | TCP_TIME_WAIT
  deriving DecidableEq, Repr

open tcp_state

/-- The fixed 20-byte TCP header `struct tcphdr`; each field holds the value of the
in-memory integer (so after `htons`/`htonl` it holds the byte-swapped value). -/
structure tcphdr where
  sport : Nat := 0
  dport : Nat := 0
  seq : Nat := 0
  ack_seq : Nat := 0
  rsvd : Nat := 0
  hl : Nat := 0
  fin : Bool := false
  syn : Bool := false
  rst : Bool := false
  psh : Bool := false
  ack : Bool := false
  urg : Bool := false
  ece : Bool := false
  cwr : Bool := false
  win : Nat := 0
  csum : Nat := 0
  urp : Nat := 0
  deriving DecidableEq, Repr

/-- The socket buffer `struct sk_buff`, restricted to what `tcp_output.c` reads and writes.
`len` is the number of bytes between the `data` pointer and the end of the buffer and
`payload` the `dlen` payload bytes.  `th` is the TCP header of the segment as the code sets
it through its two header pointers: the flags, which the senders write at `tcp_hdr(skb)`,
and the other fields, which the transmitter writes at `skb->data`.  `data_hdr` is the header
that lies at `skb->data` when the transmitter hands the buffer to the network layer, the one
that goes on the wire; it is `th` when `skb->data` is `tcp_hdr(skb)`. -/
structure sk_buff where
  protocol : Nat
  len : Nat
  dlen : Nat
  seq : Nat
  end_seq : Nat
  th : tcphdr
  payload : List Nat
  data_hdr : tcphdr := {}
  deriving DecidableEq, Repr

/-- The transmission control block `struct tcb`. -/
structure tcb where
  snd_una : Nat
  snd_nxt : Nat
  snd_wnd : Nat
  snd_up : Nat
  snd_wl1 : Nat
  iss : Nat
  rcv_nxt : Nat
  rcv_wnd : Nat
  seq : Nat
  deriving DecidableEq, Repr

/-- The generic socket `struct sock`. -/
structure sock where
  state : tcp_state
  err : Int
  sport : Nat
  dport : Nat
  saddr : Nat
  daddr : Nat
  write_queue : List sk_buff
  deriving DecidableEq, Repr

/-- The TCP socket `struct tcp_sock`; `retransmit` is the retransmission timer handle
(`none` for `NULL`).  The width of the `backoff` counter is declared in `tcp.h`, outside the
source file; the counter is a natural number here. -/
structure tcp_sock where
  sk : sock
  tcb : tcb
  tcp_header_len : Nat
  backoff : Nat
  retransmit : Option Nat
  deriving DecidableEq, Repr

/-- A timer registered with the timer subsystem. -/
structure timer where
  id : Nat
  expires : Nat
  deriving DecidableEq, Repr

/-- Calls made by the output path to its collaborators, in the order they happen. -/
inductive Event where
  | lock
  | unlock
  | queue_tail (skb : sk_buff)
  | ip_output (skb : sk_buff) (rc : Int)
  | timer_add (t : timer)
  | timer_release (id : Nat)
  | wait_wakeup
  | handle_fin_state
  deriving DecidableEq, Repr

/-- The connection together with the collaborators' state. -/
structure State where
  tsk : tcp_sock
  timers : List timer
  next_timer : Nat
  locked : Bool
  trace : List Event
  deriving DecidableEq, Repr

/-- Constants of the headers (`ethernet.h`, `ip.h`, `tcp.h`, `errno.h`) and the external
functions called by `tcp_output.c`, none of which is in the source file. -/
structure Env where
  ETH_HDR_LEN : Nat
  IP_HDR_LEN : Nat
  TCP_HDR_LEN : Nat
  IP_TCP : Nat
  TCP_CONN_RETRIES : Nat
  TCP_SYN_BACKOFF : Nat
  ETIMEDOUT : Int
  ip_output : sock → sk_buff → Int
  tcp_v4_checksum : sk_buff → Nat → Nat → Nat
  fin_state : tcp_state → tcp_state

/-! ## Collaborators modelled from the spec -/

/-- Modelled from the spec: `htons` of libc on a little-endian host, the byte swap that
puts a 16-bit field in network byte order. -/
def htons (x : Nat) : Nat := x % 256 * 256 + x / 256 % 256

/-- Modelled from the spec: `htonl` of libc on a little-endian host, the byte swap that
puts a 32-bit field in network byte order. -/
def htonl (x : Nat) : Nat :=
  x % 256 * 16777216 + x / 256 % 256 * 65536 + x / 65536 % 256 * 256 + x / 16777216 % 256

/-- Modelled from the spec: `ntohs`, the inverse byte swap (the same function). -/
def ntohs (x : Nat) : Nat := htons x

/-- Modelled from the spec: `ntohl`, the inverse byte swap (the same function). -/
def ntohl (x : Nat) : Nat := htonl x

/-- Modelled from the spec: `alloc_skb` of `skbuff.c` returns a zero-filled buffer of the
given size with no bytes in use; in particular every header flag is clear until a sender
sets it. -/
def alloc_skb (_size : Nat) : sk_buff :=
  { protocol := 0, len := 0, dlen := 0, seq := 0, end_seq := 0, th := {}, payload := [] }

/-- Modelled from the spec: `skb_reserve` of `skbuff.c` moves the `data` pointer forward,
leaving the bytes in use unchanged. -/
def skb_reserve (skb : sk_buff) (_len : Nat) : sk_buff := skb

/-- Modelled from the spec: `skb_push` of `skbuff.c` moves the `data` pointer back by `len`
bytes, which come into use. -/
def skb_push (skb : sk_buff) (len : Nat) : sk_buff := { skb with len := skb.len + len }

/-- Modelled from the spec: `skb_reset_header` of `skbuff.c` resets the header-reserved
region, so that only the payload bytes are in use. -/
def skb_reset_header (skb : sk_buff) : sk_buff := { skb with len := skb.dlen }

/-- Modelled from the spec: `pthread_mutex_lock` on the write-queue lock. -/
def pthread_mutex_lock (s : State) : State :=
  { s with locked := true, trace := s.trace ++ [Event.lock] }

/-- Modelled from the spec: `pthread_mutex_unlock` on the write-queue lock. -/
def pthread_mutex_unlock (s : State) : State :=
  { s with locked := false, trace := s.trace ++ [Event.unlock] }

/-- Modelled from the spec: `skb_queue_tail` of `skbuff.c` appends the buffer at the tail of
the write queue. -/
def skb_queue_tail (s : State) (skb : sk_buff) : State :=
  { s with
    tsk := { s.tsk with sk := { s.tsk.sk with write_queue := s.tsk.sk.write_queue ++ [skb] } },
    trace := s.trace ++ [Event.queue_tail skb] }

/-- The write queue holds pointers: a queued buffer changed in place by the transmitter is
changed in the queue.  This stores the transmitter's buffer back at the tail. -/
def store_tail (s : State) (skb : sk_buff) : State :=
  { s with tsk := { s.tsk with sk := { s.tsk.sk with
      write_queue := s.tsk.sk.write_queue.dropLast ++ [skb] } } }

/-- The write queue holds pointers: this stores the transmitter's buffer back at the head. -/
def store_head (s : State) (skb : sk_buff) : State :=
  { s with tsk := { s.tsk with sk := { s.tsk.sk with
      write_queue := skb :: s.tsk.sk.write_queue.tail } } }

/-- Modelled from the spec: `timer_add` of `timer.c` creates a live timer with the given
delay (a 32-bit value) and returns its handle. -/
def timer_add (s : State) (expire : Nat) : State × Nat :=
  let t : timer := { id := s.next_timer, expires := expire % 2 ^ 32 }
  ({ s with timers := s.timers ++ [t], next_timer := s.next_timer + 1,
            trace := s.trace ++ [Event.timer_add t] }, t.id)

/-- The assignment `tsk->retransmit = timer_add(expire, &tcp_retransmission_timeout, tsk)`:
a timer is created and its handle overwrites the stored one. -/
def arm_retransmit (s : State) (expire : Nat) : State :=
  let a := timer_add s expire
  { a.1 with tsk := { a.1.tsk with retransmit := some a.2 } }

/-- Modelled from the spec: `tcp_release_rto_timer` of `tcp.c` releases the timer the
retransmission handle refers to, which is then no longer live, and clears the handle. -/
def tcp_release_rto_timer (s : State) : State :=
  match s.tsk.retransmit with
  | none => s
  | some h =>
    { s with timers := s.timers.filter (fun t => t.id != h),
             tsk := { s.tsk with retransmit := none },
             trace := s.trace ++ [Event.timer_release h] }

/-- Modelled from the spec: `wait_wakeup` of `wait.c` wakes the waiter sleeping on the
socket. -/
def wait_wakeup (s : State) : State := { s with trace := s.trace ++ [Event.wait_wakeup] }

/-- Modelled from the spec: `tcp_set_state` of `tcp.c` stores the new connection state. -/
def tcp_set_state (s : State) (st : tcp_state) : State :=
  { s with tsk := { s.tsk with sk := { s.tsk.sk with state := st } } }

/-- Modelled from the spec: `tcp_handle_fin_state` of `tcp.c`, the connection-state
transition hook invoked on FIN handling; the transition itself is the parameter
`Env.fin_state`. -/
def tcp_handle_fin_state (env : Env) (s : State) : State :=
  { tcp_set_state s (env.fin_state s.tsk.sk.state) with
    trace := s.trace ++ [Event.handle_fin_state] }

/-! ## `tcp_output.c` -/

/-! ## The buffer in memory -/

/-- The memory image of a 16-bit header field on the little-endian host: low byte first. -/
def mem16 (v : Nat) : List Nat := [v % 256, v / 256 % 256]

/-- The memory image of a 32-bit header field on the little-endian host: low byte first. -/
def mem32 (v : Nat) : List Nat :=
  [v % 256, v / 256 % 256, v / 65536 % 256, v / 16777216 % 256]

/-- One flag bit as a number. -/
def flag_bit (b : Bool) : Nat := if b then 1 else 0

/-- Modelled from the spec: the memory image of `struct tcphdr` (declared in `tcp.h`), the 20
bytes of the wire format: ports, sequence number, acknowledgment number, the byte holding the
header length (high half) and the reserved bits, the byte holding the flags (FIN lowest,
then SYN, RST, PSH, ACK, URG, ECE, CWR), window, checksum, urgent pointer. -/
def hdr_bytes (th : tcphdr) : List Nat :=
  mem16 th.sport ++ mem16 th.dport ++ mem32 th.seq ++ mem32 th.ack_seq
    ++ [th.rsvd % 16 + 16 * (th.hl % 16),
        flag_bit th.fin + 2 * flag_bit th.syn + 4 * flag_bit th.rst + 8 * flag_bit th.psh
          + 16 * flag_bit th.ack + 32 * flag_bit th.urg + 64 * flag_bit th.ece
          + 128 * flag_bit th.cwr]
    ++ mem16 th.win ++ mem16 th.csum ++ mem16 th.urp

/-- The flags held by a flag byte (the other fields are left zero). -/
def flags_of_byte (b : Nat) : tcphdr :=
  { fin := b % 2 == 1, syn := b / 2 % 2 == 1, rst := b / 4 % 2 == 1, psh := b / 8 % 2 == 1,
    ack := b / 16 % 2 == 1, urg := b / 32 % 2 == 1, ece := b / 64 % 2 == 1,
    cwr := b / 128 % 2 == 1 }

/-- The header `h` with the flags of `f`. -/
def with_flags (h f : tcphdr) : tcphdr :=
  { h with fin := f.fin, syn := f.syn, rst := f.rst, psh := f.psh, ack := f.ack,
           urg := f.urg, ece := f.ece, cwr := f.cwr }

/-- The size of the buffer `tcp_alloc_skb` allocates for a segment of `dlen` payload bytes. -/
def buf_size (env : Env) (skb : sk_buff) : Nat :=
  skb.dlen + env.ETH_HDR_LEN + env.IP_HDR_LEN + env.TCP_HDR_LEN

/-- Modelled from the spec: the byte at offset `a` from the head of a buffer allocated by
`tcp_alloc_skb`: the link and IP head-room (zero-filled; what the lower layers write there is
outside this file), the header region at `tcp_hdr(skb) = head + ETH_HDR_LEN + IP_HDR_LEN`,
then the payload; a byte the model does not track reads as zero. -/
def buf_byte (env : Env) (skb : sk_buff) (a : Nat) : Nat :=
  if a < env.ETH_HDR_LEN + env.IP_HDR_LEN then 0
  else if a < env.ETH_HDR_LEN + env.IP_HDR_LEN + 20 then
    (hdr_bytes skb.th).getD (a - (env.ETH_HDR_LEN + env.IP_HDR_LEN)) 0
  else if a < env.ETH_HDR_LEN + env.IP_HDR_LEN + env.TCP_HDR_LEN then 0
  else skb.payload.getD (a - (env.ETH_HDR_LEN + env.IP_HDR_LEN + env.TCP_HDR_LEN)) 0

/-- The flag bits of the header `thdr = (struct tcphdr *) skb->data` of `tcp_transmit_skb`,
which the transmitter does not write.  The `data` pointer is `len` bytes before the end of
the buffer.  When that is `tcp_hdr(skb)`, that is when `len = dlen + TCP_HDR_LEN` (header
length `TCP_HDR_LEN` on a fresh or reset buffer), they are the flags the sender set;
otherwise they are the bits of the byte that lies at offset 13 from `skb->data`. -/
def data_flags (env : Env) (skb : sk_buff) : tcphdr :=
  if skb.len = skb.dlen + env.TCP_HDR_LEN then skb.th
  else if skb.len ≤ buf_size env skb then
    flags_of_byte (buf_byte env skb (buf_size env skb - skb.len + 13))
  else flags_of_byte 0

/-! ## `tcp_output.c` (continued) -/

/-- The C function `tcp_alloc_skb`; `payload` is the `size` payload bytes of the zero-filled
buffer. -/
def tcp_alloc_skb (env : Env) (size : Nat) : sk_buff :=
  let skb := alloc_skb (size + env.ETH_HDR_LEN + env.IP_HDR_LEN + env.TCP_HDR_LEN)
  let skb := skb_reserve skb (size + env.ETH_HDR_LEN + env.IP_HDR_LEN + env.TCP_HDR_LEN)
  { skb with protocol := env.IP_TCP, dlen := size, payload := List.replicate size 0 }

/-- Result of the transmitter: the state, the buffer as changed in place, and the return
code. -/
structure xmit where
  s : State
  skb : sk_buff
  rc : Int

/-- The header fill of `tcp_transmit_skb` (lines 25-52): the buffer after `skb_push`, after
the header fields have been written through `thdr = skb->data`, the sequence range recorded,
the fields swapped to network byte order and the checksum stored.  The transmitter writes
every field of the header except the flags.  `th` keeps the flags the sender set at
`tcp_hdr(skb)` and takes the fields written; `data_hdr`, the header at `skb->data` that the
network layer sends, takes the fields written and the flag bits found there (`data_flags`).
When `skb->data` is not `tcp_hdr(skb)` the fields written land elsewhere in the buffer; `th`
then still lists, field by field, the values the code wrote. -/
def tcp_fill_header (env : Env) (tsk : tcp_sock) (skb : sk_buff) : sk_buff :=
  let skb := skb_push skb tsk.tcp_header_len
  let flags := data_flags env skb
  let thdr : tcphdr :=
    { skb.th with
      sport := tsk.sk.sport, dport := tsk.sk.dport, seq := tsk.tcb.seq,
      ack_seq := tsk.tcb.rcv_nxt, hl := 5, rsvd := 0, win := tsk.tcb.rcv_wnd % 2 ^ 16,
      csum := 0, urp := 0 }
  let skb := { skb with th := thdr, seq := tsk.tcb.seq,
                        end_seq := (tsk.tcb.seq + skb.dlen) % 2 ^ 32 }
  let thdr : tcphdr :=
    { thdr with
      sport := htons thdr.sport, dport := htons thdr.dport, seq := htonl thdr.seq,
      ack_seq := htonl thdr.ack_seq, win := htons thdr.win, csum := htons thdr.csum,
      urp := htons thdr.urp }
  let skb := { skb with th := thdr, data_hdr := with_flags thdr flags }
  let csum := env.tcp_v4_checksum skb (htonl tsk.sk.saddr) (htonl tsk.sk.daddr)
  { skb with th := { thdr with csum := csum },
             data_hdr := { with_flags thdr flags with csum := csum } }

/-- The C function `tcp_transmit_skb`: fill the header, hand the buffer to `ip_output`. -/
def tcp_transmit_skb (env : Env) (s : State) (skb : sk_buff) : xmit :=
  let skb := tcp_fill_header env s.tsk skb
  let rc := env.ip_output s.tsk.sk skb
  { s := { s with trace := s.trace ++ [Event.ip_output skb rc] }, skb := skb, rc := rc }

/-- The C function `tcp_queue_transmit_skb`. -/
def tcp_queue_transmit_skb (env : Env) (s : State) (skb : sk_buff) : State × Int :=
  let s := pthread_mutex_lock s
  let s := skb_queue_tail s skb
  let r := tcp_transmit_skb env s skb
  let s := store_tail r.s r.skb
  let s := pthread_mutex_unlock s
  (s, r.rc)

/-- The C function `tcp_send_finack`. -/
def tcp_send_finack (env : Env) (s : State) : State × Int :=
  let skb := tcp_alloc_skb env 0
  let skb := { skb with th := { skb.th with fin := true, ack := true } }
  let r := tcp_transmit_skb env s skb
  (r.s, r.rc)

/-- The C function `tcp_send_synack`. -/
def tcp_send_synack (env : Env) (s : State) : State × Int :=
  if s.tsk.sk.state ≠ TCP_SYN_SENT then (s, 1)
  else
    let skb := tcp_alloc_skb env 0
    let skb := { skb with th := { skb.th with syn := true, ack := true } }
    let r := tcp_transmit_skb env s skb
    (r.s, r.rc)

/-- The C function `tcp_send_ack`. -/
def tcp_send_ack (env : Env) (s : State) : State × Int :=
  if s.tsk.sk.state = TCP_CLOSE then (s, 0)
  else
    let skb := tcp_alloc_skb env 0
    let skb := { skb with th := { skb.th with ack := true } }
    let r := tcp_transmit_skb env s skb
    (r.s, r.rc)

/-- The C function `tcp_send_syn`. -/
def tcp_send_syn (env : Env) (s : State) : State × Int :=
  if s.tsk.sk.state ≠ TCP_SYN_SENT ∧ s.tsk.sk.state ≠ TCP_CLOSE ∧ s.tsk.sk.state ≠ TCP_LISTEN then
    (s, 1)
  else
    let skb := tcp_alloc_skb env 0
    let s := { s with tsk := { s.tsk with sk := { s.tsk.sk with state := TCP_SYN_SENT } } }
    let skb := { skb with th := { skb.th with syn := true } }
    tcp_queue_transmit_skb env s skb

/-- The C function `tcp_send_fin`. -/
def tcp_send_fin (env : Env) (s : State) : State × Int :=
  if s.tsk.sk.state = TCP_CLOSE then (s, 0)
  else
    let skb := tcp_alloc_skb env 0
    let skb := { skb with th := { skb.th with fin := true, ack := true } }
    let s := { s with tsk := { s.tsk with tcb := { s.tsk.tcb with
                snd_nxt := (s.tsk.tcb.snd_nxt + 1) % 2 ^ 32 } } }
    tcp_queue_transmit_skb env s skb

/-- The C function `tcp_select_initial_window`. -/
def tcp_select_initial_window : Nat := 29200

/-- The C function `tcp_connect_rto`. -/
def tcp_connect_rto (env : Env) (s : State) : State :=
  if s.tsk.sk.state ≠ TCP_ESTABLISHED then
    if s.tsk.backoff > env.TCP_CONN_RETRIES then
      let s := { s with tsk := { s.tsk with sk := { s.tsk.sk with err := -env.ETIMEDOUT } } }
      let s := tcp_set_state s TCP_CLOSE
      wait_wakeup s
    else
      let s := { s with tsk := { s.tsk with backoff := s.tsk.backoff + 1 } }
      arm_retransmit s (env.TCP_SYN_BACKOFF <<< s.tsk.backoff)
  else s

/-- The C function `tcp_notify_user`. -/
def tcp_notify_user (s : State) : State :=
  match s.tsk.sk.state with
  | TCP_CLOSE_WAIT => wait_wakeup s
  | _ => s

/-- The C function `tcp_retransmission_timeout`, the retransmission timer's callback. -/
def tcp_retransmission_timeout (env : Env) (s : State) : State :=
  let s := pthread_mutex_lock s
  let s := tcp_release_rto_timer s
  match s.tsk.sk.write_queue with
  | [] =>
    let s := tcp_notify_user s
    pthread_mutex_unlock s
  | skb :: _ =>
    let skb := skb_reset_header skb
    let r := tcp_transmit_skb env s skb
    let s := store_head r.s r.skb
    let s := if r.skb.th.syn then tcp_connect_rto env s else arm_retransmit s 500
    let s := if r.skb.th.fin then tcp_handle_fin_state env s else s
    pthread_mutex_unlock s

/-- The C function `tcp_connect`; `iss` is the value returned by `generate_iss()`. -/
def tcp_connect (env : Env) (iss : Nat) (s : State) : State × Int :=
  let t := s.tsk.tcb
  let t := { t with iss := iss % 2 ^ 32 }
  let t := { t with snd_wnd := 0 }
  let t := { t with snd_wl1 := 0 }
  let t := { t with snd_una := t.iss }
  let t := { t with snd_up := t.iss }
  let t := { t with snd_nxt := (t.iss + 1) % 2 ^ 32 }
  let t := { t with rcv_nxt := 0 }
  let t := { t with seq := t.iss }
  let t := { t with rcv_wnd := tcp_select_initial_window }
  let s := { s with tsk := { s.tsk with tcp_header_len := 20, tcb := t } }
  let s := arm_retransmit s (env.TCP_SYN_BACKOFF <<< s.tsk.backoff)
  tcp_send_syn env s

/-- The C function `tcp_send`; the pair `(buf, len)` of the C signature is the list of
payload bytes `buf`, with `len = buf.length`. -/
def tcp_send (env : Env) (s : State) (buf : List Nat) : State × Int :=
  let len := buf.length
  let skb := tcp_alloc_skb env len
  let skb := skb_push skb len
  let skb := { skb with payload := buf }
  let skb := { skb with th := { skb.th with ack := true, psh := true } }
  let s := { s with tsk := { s.tsk with tcb := { s.tsk.tcb with seq := s.tsk.tcb.snd_nxt } } }
  let s := { s with tsk := { s.tsk with tcb := { s.tsk.tcb with
              snd_nxt := (s.tsk.tcb.snd_nxt + len) % 2 ^ 32 } } }
  let r := tcp_queue_transmit_skb env s skb
  let s := arm_retransmit r.1 500
  let ret := r.2 - ((env.ETH_HDR_LEN : Int) + env.IP_HDR_LEN + env.TCP_HDR_LEN)
  if ret ≠ (len : Int) then (s, -1) else (s, ret)

/-- The C function `tcp_send_reset`. -/
def tcp_send_reset (env : Env) (s : State) : State × Int :=
  let skb := tcp_alloc_skb env 0
  let skb := { skb with th := { skb.th with rst := true } }
  let s := { s with tsk := { s.tsk with tcb := { s.tsk.tcb with seq := s.tsk.tcb.snd_nxt } } }
  let r := tcp_transmit_skb env s skb
  (r.s, r.rc)

/-- The C function `tcp_queue_fin`. -/
def tcp_queue_fin (env : Env) (s : State) : State × Int :=
  let skb := tcp_alloc_skb env 0
  let skb := { skb with th := { skb.th with fin := true, ack := true } }
  let s := pthread_mutex_lock s
  let ready := s.tsk.sk.write_queue.isEmpty
  let s := skb_queue_tail s skb
  if ready then
    let s := tcp_release_rto_timer s
    let s := arm_retransmit s 500
    let s := { s with tsk := { s.tsk with tcb := { s.tsk.tcb with
                snd_nxt := (s.tsk.tcb.snd_nxt + 1) % 2 ^ 32 } } }
    let r := tcp_transmit_skb env s skb
    let s := store_tail r.s r.skb
    let s := tcp_handle_fin_state env s
    let s := pthread_mutex_unlock s
    (s, r.rc)
  else
    let s := pthread_mutex_unlock s
    (s, 0)

/-! ## Intermediate states of the timer callback -/

/-- The state of `tcp_retransmission_timeout` after line 237, when `skb` is the head of the
write queue: lock taken, timer handle released, head retransmitted. -/
def rto_transmitted (env : Env) (s : State) (skb : sk_buff) : State :=
  let r := tcp_transmit_skb env (tcp_release_rto_timer (pthread_mutex_lock s))
    (skb_reset_header skb)
  store_head r.s r.skb

/-- Lines 239-243 of `tcp_retransmission_timeout`: the re-arming step. -/
def rto_rearm (env : Env) (syn : Bool) (s : State) : State :=
  if syn then tcp_connect_rto env s else arm_retransmit s 500

/-- Lines 245-247 of `tcp_retransmission_timeout`: the FIN step. -/
def rto_fin (env : Env) (fin : Bool) (s : State) : State :=
  if fin then tcp_handle_fin_state env s else s

/-- The state of `tcp_queue_fin` at line 360, when the write queue was empty: FIN queued,
timer re-armed, `snd_nxt` advanced, FIN transmitted and the FIN transition made, the lock
still held. -/
def queue_fin_ready (env : Env) (s : State) : State :=
  let skb := tcp_alloc_skb env 0
  let skb := { skb with th := { skb.th with fin := true, ack := true } }
  let s := skb_queue_tail (pthread_mutex_lock s) skb
  let s := tcp_release_rto_timer s
  let s := arm_retransmit s 500
  let s := { s with tsk := { s.tsk with tcb := { s.tsk.tcb with
              snd_nxt := (s.tsk.tcb.snd_nxt + 1) % 2 ^ 32 } } }
  let r := tcp_transmit_skb env s skb
  let s := store_tail r.s r.skb
  tcp_handle_fin_state env s

/-! ## Observations on the trace -/

/-- The buffers handed to `ip_output`, in order. -/
def sent : List Event → List sk_buff
  | [] => []
  | Event.ip_output skb _ :: es => skb :: sent es
  | _ :: es => sent es

/-- The delays of the timers armed, in order. -/
def armed : List Event → List Nat
  | [] => []
  | Event.timer_add t :: es => t.expires :: armed es
  | _ :: es => armed es

/-- The sequence number a transmitted buffer carries on the wire (the header field read
back in host byte order). -/
def wire_seq (skb : sk_buff) : Nat := ntohl skb.th.seq

/-- The return codes of the calls to `ip_output`, in order. -/
def results : List Event → List Int
  | [] => []
  | Event.ip_output _ rc :: es => rc :: results es
  | _ :: es => results es

/-- The number of times the waiter was woken. -/
def wakeups : List Event → Nat
  | [] => 0
  | Event.wait_wakeup :: es => wakeups es + 1
  | _ :: es => wakeups es

/-- A SYN segment as `tcp_send_syn` builds it: it carries SYN and no FIN. -/
def is_syn_segment (skb : sk_buff) : Prop := skb.th.syn = true ∧ skb.th.fin = false

instance (skb : sk_buff) : Decidable (is_syn_segment skb) := by
  unfold is_syn_segment; exact inferInstance

/-- The head of the write queue (`write_queue_head`), `none` when the queue is empty. -/
def write_queue_head (s : State) : Option sk_buff := s.tsk.sk.write_queue.head?

/-- Successive calls of `tcp_send`, one per payload. -/
def tcp_send_all (env : Env) (s : State) : List (List Nat) → State
  | [] => s
  | buf :: bufs => tcp_send_all env (tcp_send env s buf).1 bufs

/-- Successive firings of the retransmission timer. -/
def fire (env : Env) : Nat → State → State
  | 0, s => s
  | n + 1, s => fire env n (tcp_retransmission_timeout env s)

/-! ## Concrete inputs for the examples -/

/-- Collaborators for the examples: level-ip's header sizes (14, 20, 20), retry ceiling 5,
base interval `T`, a network layer that accepts every buffer whole, and the FIN transition
of RFC 793. -/
def env_T (T : Nat) : Env :=
  { ETH_HDR_LEN := 14, IP_HDR_LEN := 20, TCP_HDR_LEN := 20, IP_TCP := 6,
    TCP_CONN_RETRIES := 5, TCP_SYN_BACKOFF := T, ETIMEDOUT := 110,
    ip_output := fun _ skb => (skb.dlen : Int) + 54,
    tcp_v4_checksum := fun _ _ _ => 0,
    fin_state := fun st =>
      match st with
      | TCP_CLOSE_WAIT => TCP_LAST_ACK
      | TCP_ESTABLISHED => TCP_FIN_WAIT_1
      | st => st }

/-- The collaborators with base interval 500. -/
def env0 : Env := env_T 500

/-- The collaborators of `env0` with a network layer that rejects every buffer. -/
def env_down : Env := { env0 with ip_output := fun _ _ => -1 }

/-- A connection in state `st` with cursor `seq`, next free sequence number `snd_nxt`, an
empty write queue, backoff 0 and no timer. -/
def conn (st : tcp_state) (seq snd_nxt : Nat) : State :=
  { tsk :=
      { sk := { state := st, err := 0, sport := 40000, dport := 80, saddr := 167772164,
                daddr := 167772165, write_queue := [] },
        tcb := { snd_una := seq, snd_nxt := snd_nxt, snd_wnd := 0, snd_up := 0, snd_wl1 := 0,
                 iss := 0, rcv_nxt := 0, rcv_wnd := 29200, seq := seq },
        tcp_header_len := 20, backoff := 0, retransmit := none },
    timers := [], next_timer := 0, locked := false, trace := [] }

/-- The payload "hello". -/
def hello : List Nat := [104, 101, 108, 108, 111]

/-- The connection after `tcp_send` of "hello" at `snd_nxt = 100`. -/
def hello_sent : State := (tcp_send env0 (conn TCP_ESTABLISHED 100 100) hello).1

/-- The segment carrying "hello", as queued by `hello_sent`. -/
def hello_skb : sk_buff := hello_sent.tsk.sk.write_queue.headD (tcp_alloc_skb env0 0)

/-- The connection after two `tcp_send` calls, of "a" then of "b", at `snd_nxt = 100`. -/
def two_sends : State :=
  (tcp_send env0 (tcp_send env0 (conn TCP_ESTABLISHED 100 100) [97]).1 [98]).1

/-- The recorded range, wire sequence number and payload of a segment. -/
def seq_view (skb : sk_buff) : Nat × Nat × Nat × List Nat :=
  (skb.seq, skb.end_seq, wire_seq skb, skb.payload)

/-- The values of `snd_nxt` at the successive calls of `tcp_send`, one per payload, starting
from `c`. -/
def seq_cursors (c : Nat) : List (List Nat) → List Nat
  | [] => []
  | buf :: bufs => c :: seq_cursors ((c + buf.length) % 2 ^ 32) bufs

/-- A connection waiting for its SYN to be acknowledged: state SYN_SENT, backoff counter `b`,
a SYN segment at the head of the write queue, and one live timer, the one the retransmission
handle refers to. -/
def syn_pending (s : State) (b : Nat) : Prop :=
  s.tsk.sk.state = TCP_SYN_SENT ∧ s.tsk.backoff = b ∧
  (∃ skb rest, s.tsk.sk.write_queue = skb :: rest ∧ is_syn_segment skb) ∧
  (∃ t : timer, s.timers = [t] ∧ s.tsk.retransmit = some t.id)

/-- The connection after `tcp_connect` with `iss = 1000` on a CLOSED connection. -/
def connected : State := (tcp_connect env0 1000 (conn TCP_CLOSE 0 0)).1

/-- The SYN segment queued by `connected`. -/
def syn_skb : sk_buff := connected.tsk.sk.write_queue.headD (tcp_alloc_skb env0 0)

/-- The connection `connected` after six firings of the retransmission timer. -/
def retries_spent : State := fire env0 6 connected

/-- The SYN segment at the head of the write queue of `retries_spent`. -/
def retries_spent_skb : sk_buff :=
  retries_spent.tsk.sk.write_queue.headD (tcp_alloc_skb env0 0)

/-! ## The header on the wire -/

/-- A string of bytes read as a big-endian number, the way the peer reads a header field. -/
def be_read (bs : List Nat) : Nat := bs.foldl (fun acc b => acc * 256 + b) 0

/-- The fields of the TCP header as the peer reads them. -/
structure wire_header where
  sport : Nat
  dport : Nat
  seq : Nat
  ack_seq : Nat
  hl : Nat
  rsvd : Nat
  fin : Bool
  syn : Bool
  rst : Bool
  psh : Bool
  ack : Bool
  urg : Bool
  ece : Bool
  cwr : Bool
  win : Nat
  urp : Nat
  deriving DecidableEq, Repr

/-- The header handed to the network layer (`data_hdr`, the header at `skb->data`) read as
big-endian fields: every multi-byte field is read from its memory image; the header length,
the reserved bits and the flags are sub-byte fields. -/
def wire_view (skb : sk_buff) : wire_header :=
  { sport := be_read (mem16 skb.data_hdr.sport), dport := be_read (mem16 skb.data_hdr.dport),
    seq := be_read (mem32 skb.data_hdr.seq), ack_seq := be_read (mem32 skb.data_hdr.ack_seq),
    hl := skb.data_hdr.hl, rsvd := skb.data_hdr.rsvd,
    fin := skb.data_hdr.fin, syn := skb.data_hdr.syn, rst := skb.data_hdr.rst,
    psh := skb.data_hdr.psh, ack := skb.data_hdr.ack, urg := skb.data_hdr.urg,
    ece := skb.data_hdr.ece, cwr := skb.data_hdr.cwr,
    win := be_read (mem16 skb.data_hdr.win), urp := be_read (mem16 skb.data_hdr.urp) }

/-! ## The write-queue lock along a trace -/

/-- The state of the write-queue lock after the events `es`, starting from `held`; `none`
when the lock is taken while held, released while free, or when the queue is changed or a
queued buffer transmitted while the lock is free. -/
def lock_check : Bool → List Event → Option Bool
  | held, [] => some held
  | held, Event.lock :: es => if held then none else lock_check true es
  | held, Event.unlock :: es => if held then lock_check false es else none
  | held, Event.queue_tail _ :: es => if held then lock_check held es else none
  | held, Event.ip_output _ _ :: es => if held then lock_check held es else none
  | held, _ :: es => lock_check held es

/-- The events `es` neither take nor release the lock. -/
def lock_free (es : List Event) : Prop := Event.lock ∉ es ∧ Event.unlock ∉ es

/-- From `s` to `s'` the trace grows by events that neither take nor release the lock. -/
def quiet_steps (s s' : State) : Prop :=
  ∃ x : List Event, s'.trace = s.trace ++ x ∧ lock_free x

/-- Between the states `s` and `s'` the lock is taken exactly once, while it is free, every
queue insertion and every transmission happens while it is held, and it is free again in
`s'`. -/
def holds_lock_once (s s' : State) : Prop :=
  ∃ E : List Event, s'.trace = s.trace ++ E ∧ lock_check s.locked E = some false ∧
    E.count Event.lock = 1 ∧ s'.locked = false

/-! ## Further inputs for the examples -/

/-- The connection `conn st 0 0` with backoff counter `b`. -/
def conn_backoff (st : tcp_state) (b : Nat) : State :=
  { conn st 0 0 with tsk := { (conn st 0 0).tsk with backoff := b } }

/-- An ESTABLISHED connection with cursor and `snd_nxt` 100 whose receive window is `w`. -/
def conn_wnd (w : Nat) : State :=
  { conn TCP_ESTABLISHED 100 100 with
    tsk := { (conn TCP_ESTABLISHED 100 100).tsk with
      tcb := { (conn TCP_ESTABLISHED 100 100).tsk.tcb with rcv_wnd := w } } }

/-- An ESTABLISHED connection with cursor and `snd_nxt` 100 whose header length is `hl`. -/
def conn_hl (hl : Nat) : State :=
  { conn TCP_ESTABLISHED 100 100 with
    tsk := { (conn TCP_ESTABLISHED 100 100).tsk with tcp_header_len := hl } }

/-- The fresh buffer `tcp_send` builds for "hello" (lines 283-289), before it is queued and
transmitted: payload copied, ACK and PSH set. -/
def hello_fresh : sk_buff :=
  { skb_push (tcp_alloc_skb env0 5) 5 with
    payload := hello,
    th := { (skb_push (tcp_alloc_skb env0 5) 5).th with ack := true, psh := true } }

/-- The connection `connected` once the handshake has completed (state ESTABLISHED) while
the SYN segment is still at the head of the write queue. -/
def established_syn_head : State :=
  { connected with tsk := { connected.tsk with
      sk := { connected.tsk.sk with state := TCP_ESTABLISHED } } }

/-- The connection `established_syn_head` after a `tcp_send` of "hello": a data segment is
queued behind the SYN. -/
def established_syn_data : State := (tcp_send env0 established_syn_head hello).1

/-- The flags, payload length and payload of the segments of a queue. -/
def queue_view (q : List sk_buff) : List (Bool × Bool × Bool × Nat × List Nat) :=
  q.map (fun skb => (skb.th.syn, skb.th.fin, skb.th.ack, skb.dlen, skb.payload))

/-! ## Auxiliary lemmas -/

theorem sent_append (a b : List Event) : sent (a ++ b) = sent a ++ sent b := by
  induction a with
  | nil => rfl
  | cons e es ih => cases e <;> simp [sent, ih]

theorem armed_append (a b : List Event) : armed (a ++ b) = armed a ++ armed b := by
  induction a with
  | nil => rfl
  | cons e es ih => cases e <;> simp [armed, ih]

theorem htonl_lt (x : Nat) : htonl x < 2 ^ 32 := by
  unfold htonl; omega

theorem htonl_bytes (a b c d : Nat) (ha : a < 256) (hb : b < 256) (hc : c < 256)
    (hd : d < 256) :
    htonl (a * 16777216 + b * 65536 + c * 256 + d) = d * 16777216 + c * 65536 + b * 256 + a := by
  have h1 : (a * 16777216 + b * 65536 + c * 256 + d) % 256 = d := by omega
  have h2 : (a * 16777216 + b * 65536 + c * 256 + d) / 256 % 256 = c := by omega
  have h3 : (a * 16777216 + b * 65536 + c * 256 + d) / 65536 % 256 = b := by omega
  have h4 : (a * 16777216 + b * 65536 + c * 256 + d) / 16777216 % 256 = a := by omega
  unfold htonl
  rw [h1, h2, h3, h4]

theorem htonl_htonl (x : Nat) (h : x < 2 ^ 32) : htonl (htonl x) = x := by
  have hx : x % 256 + 256 * (x / 256 % 256) + 65536 * (x / 65536 % 256)
      + 16777216 * (x / 16777216 % 256) = x := by omega
  have e : htonl x = x % 256 * 16777216 + x / 256 % 256 * 65536 + x / 65536 % 256 * 256
      + x / 16777216 % 256 := rfl
  rw [e, htonl_bytes _ _ _ _ (by omega) (by omega) (by omega) (by omega)]
  omega

theorem ntohl_htonl (x : Nat) (h : x < 2 ^ 32) : ntohl (htonl x) = x := htonl_htonl x h

theorem results_append (a b : List Event) : results (a ++ b) = results a ++ results b := by
  induction a with
  | nil => rfl
  | cons e es ih => cases e <;> simp [results, ih]

theorem wakeups_append (a b : List Event) : wakeups (a ++ b) = wakeups a + wakeups b := by
  induction a with
  | nil => simp [wakeups]
  | cons e es ih =>
    cases e
    all_goals simp [wakeups, ih]
    omega


/-! ### Frame lemmas for the collaborators -/

@[simp]
theorem pthread_mutex_lock_tsk (s : State) : (pthread_mutex_lock s).tsk = s.tsk := rfl
@[simp]
theorem pthread_mutex_lock_timers (s : State) :
    (pthread_mutex_lock s).timers = s.timers := rfl
@[simp]
theorem pthread_mutex_lock_next (s : State) :
    (pthread_mutex_lock s).next_timer = s.next_timer := rfl
@[simp]
theorem pthread_mutex_lock_trace (s : State) :
    (pthread_mutex_lock s).trace = s.trace ++ [Event.lock] := rfl
@[simp]
theorem pthread_mutex_lock_locked (s : State) : (pthread_mutex_lock s).locked = true := rfl

@[simp]
theorem pthread_mutex_unlock_tsk (s : State) : (pthread_mutex_unlock s).tsk = s.tsk := rfl
@[simp]
theorem pthread_mutex_unlock_timers (s : State) :
    (pthread_mutex_unlock s).timers = s.timers := rfl
@[simp]
theorem pthread_mutex_unlock_next (s : State) :
    (pthread_mutex_unlock s).next_timer = s.next_timer := rfl
@[simp]
theorem pthread_mutex_unlock_trace (s : State) :
    (pthread_mutex_unlock s).trace = s.trace ++ [Event.unlock] := rfl
@[simp]
theorem pthread_mutex_unlock_locked (s : State) :
    (pthread_mutex_unlock s).locked = false := rfl

@[simp]
theorem wait_wakeup_tsk (s : State) : (wait_wakeup s).tsk = s.tsk := rfl
@[simp]
theorem wait_wakeup_timers (s : State) : (wait_wakeup s).timers = s.timers := rfl
@[simp]
theorem wait_wakeup_next (s : State) : (wait_wakeup s).next_timer = s.next_timer := rfl
@[simp]
theorem wait_wakeup_trace (s : State) :
    (wait_wakeup s).trace = s.trace ++ [Event.wait_wakeup] := rfl
@[simp]
theorem wait_wakeup_locked (s : State) : (wait_wakeup s).locked = s.locked := rfl

@[simp]
theorem skb_queue_tail_tsk (s : State) (skb : sk_buff) :
    (skb_queue_tail s skb).tsk
      = { s.tsk with sk := { s.tsk.sk with write_queue := s.tsk.sk.write_queue ++ [skb] } } := rfl
@[simp]
theorem skb_queue_tail_timers (s : State) (skb : sk_buff) :
    (skb_queue_tail s skb).timers = s.timers := rfl
@[simp]
theorem skb_queue_tail_next (s : State) (skb : sk_buff) :
    (skb_queue_tail s skb).next_timer = s.next_timer := rfl
@[simp]
theorem skb_queue_tail_trace (s : State) (skb : sk_buff) :
    (skb_queue_tail s skb).trace = s.trace ++ [Event.queue_tail skb] := rfl
@[simp]
theorem skb_queue_tail_locked (s : State) (skb : sk_buff) :
    (skb_queue_tail s skb).locked = s.locked := rfl

@[simp]
theorem store_tail_tsk (s : State) (skb : sk_buff) :
    (store_tail s skb).tsk
      = { s.tsk with sk := { s.tsk.sk with
            write_queue := s.tsk.sk.write_queue.dropLast ++ [skb] } } := rfl
@[simp]
theorem store_tail_timers (s : State) (skb : sk_buff) :
    (store_tail s skb).timers = s.timers := rfl
@[simp]
theorem store_tail_next (s : State) (skb : sk_buff) :
    (store_tail s skb).next_timer = s.next_timer := rfl
@[simp]
theorem store_tail_trace (s : State) (skb : sk_buff) :
    (store_tail s skb).trace = s.trace := rfl
@[simp]
theorem store_tail_locked (s : State) (skb : sk_buff) :
    (store_tail s skb).locked = s.locked := rfl

@[simp]
theorem store_head_tsk (s : State) (skb : sk_buff) :
    (store_head s skb).tsk
      = { s.tsk with sk := { s.tsk.sk with write_queue := skb :: s.tsk.sk.write_queue.tail } } :=
  rfl
@[simp]
theorem store_head_timers (s : State) (skb : sk_buff) :
    (store_head s skb).timers = s.timers := rfl
@[simp]
theorem store_head_next (s : State) (skb : sk_buff) :
    (store_head s skb).next_timer = s.next_timer := rfl
@[simp]
theorem store_head_trace (s : State) (skb : sk_buff) :
    (store_head s skb).trace = s.trace := rfl
@[simp]
theorem store_head_locked (s : State) (skb : sk_buff) :
    (store_head s skb).locked = s.locked := rfl

@[simp]
theorem timer_add_tsk (s : State) (d : Nat) : (timer_add s d).1.tsk = s.tsk := rfl
@[simp]
theorem timer_add_timers (s : State) (d : Nat) :
    (timer_add s d).1.timers = s.timers ++ [{ id := s.next_timer, expires := d % 2 ^ 32 }] := rfl
@[simp]
theorem timer_add_next (s : State) (d : Nat) :
    (timer_add s d).1.next_timer = s.next_timer + 1 := rfl
@[simp]
theorem timer_add_trace (s : State) (d : Nat) :
    (timer_add s d).1.trace
      = s.trace ++ [Event.timer_add { id := s.next_timer, expires := d % 2 ^ 32 }] := rfl
@[simp]
theorem timer_add_locked (s : State) (d : Nat) : (timer_add s d).1.locked = s.locked := rfl
@[simp]
theorem timer_add_handle (s : State) (d : Nat) : (timer_add s d).2 = s.next_timer := rfl

@[simp]
theorem arm_retransmit_tsk (s : State) (d : Nat) :
    (arm_retransmit s d).tsk = { s.tsk with retransmit := some s.next_timer } := rfl
@[simp]
theorem arm_retransmit_timers (s : State) (d : Nat) :
    (arm_retransmit s d).timers
      = s.timers ++ [{ id := s.next_timer, expires := d % 2 ^ 32 }] := rfl
@[simp]
theorem arm_retransmit_next (s : State) (d : Nat) :
    (arm_retransmit s d).next_timer = s.next_timer + 1 := rfl
@[simp]
theorem arm_retransmit_trace (s : State) (d : Nat) :
    (arm_retransmit s d).trace
      = s.trace ++ [Event.timer_add { id := s.next_timer, expires := d % 2 ^ 32 }] := rfl
@[simp]
theorem arm_retransmit_locked (s : State) (d : Nat) :
    (arm_retransmit s d).locked = s.locked := rfl

@[simp]
theorem tcp_set_state_tsk (s : State) (st : tcp_state) :
    (tcp_set_state s st).tsk = { s.tsk with sk := { s.tsk.sk with state := st } } := rfl
@[simp]
theorem tcp_set_state_timers (s : State) (st : tcp_state) :
    (tcp_set_state s st).timers = s.timers := rfl
@[simp]
theorem tcp_set_state_next (s : State) (st : tcp_state) :
    (tcp_set_state s st).next_timer = s.next_timer := rfl
@[simp]
theorem tcp_set_state_trace (s : State) (st : tcp_state) :
    (tcp_set_state s st).trace = s.trace := rfl
@[simp]
theorem tcp_set_state_locked (s : State) (st : tcp_state) :
    (tcp_set_state s st).locked = s.locked := rfl

@[simp]
theorem tcp_handle_fin_state_tsk (env : Env) (s : State) :
    (tcp_handle_fin_state env s).tsk
      = { s.tsk with sk := { s.tsk.sk with state := env.fin_state s.tsk.sk.state } } := rfl
@[simp]
theorem tcp_handle_fin_state_timers (env : Env) (s : State) :
    (tcp_handle_fin_state env s).timers = s.timers := rfl
@[simp]
theorem tcp_handle_fin_state_next (env : Env) (s : State) :
    (tcp_handle_fin_state env s).next_timer = s.next_timer := rfl
@[simp]
theorem tcp_handle_fin_state_trace (env : Env) (s : State) :
    (tcp_handle_fin_state env s).trace = s.trace ++ [Event.handle_fin_state] := rfl
@[simp]
theorem tcp_handle_fin_state_locked (env : Env) (s : State) :
    (tcp_handle_fin_state env s).locked = s.locked := rfl

@[simp]
theorem tcp_release_rto_timer_tsk (s : State) :
    (tcp_release_rto_timer s).tsk = { s.tsk with retransmit := none } := by
  unfold tcp_release_rto_timer
  cases h : s.tsk.retransmit with
  | none =>
    rcases s with ⟨⟨sk, t, hl, b, r⟩, tm, nt, lk, tr⟩
    simp at h
    simp [h]
  | some v => rfl

@[simp]
theorem tcp_release_rto_timer_timers (s : State) :
    (tcp_release_rto_timer s).timers
      = s.timers.filter (fun t => some t.id != s.tsk.retransmit) := by
  unfold tcp_release_rto_timer
  cases h : s.tsk.retransmit with
  | none =>
    symm
    apply List.filter_eq_self.2
    intro t _
    exact bne_iff_ne.2 (by simp)
  | some v =>
    apply List.filter_congr
    intro t _
    by_cases e : t.id = v
    · simp [e]
    · have h1 : (t.id != v) = true := bne_iff_ne.2 e
      have h2 : (some t.id != some v) = true := bne_iff_ne.2 (by simpa using e)
      rw [h1, h2]

@[simp]
theorem tcp_release_rto_timer_next (s : State) :
    (tcp_release_rto_timer s).next_timer = s.next_timer := by
  unfold tcp_release_rto_timer
  cases h : s.tsk.retransmit <;> rfl

@[simp]
theorem tcp_release_rto_timer_locked (s : State) :
    (tcp_release_rto_timer s).locked = s.locked := by
  unfold tcp_release_rto_timer
  cases h : s.tsk.retransmit <;> rfl

theorem tcp_release_rto_timer_trace (s : State) :
    (tcp_release_rto_timer s).trace
      = s.trace ++ (match s.tsk.retransmit with
                    | none => []
                    | some h => [Event.timer_release h]) := by
  unfold tcp_release_rto_timer
  cases h : s.tsk.retransmit <;> simp

@[simp]
theorem tcp_release_rto_timer_sent (s : State) :
    sent (tcp_release_rto_timer s).trace = sent s.trace := by
  rw [tcp_release_rto_timer_trace, sent_append]
  cases h : s.tsk.retransmit <;> simp [sent]

@[simp]
theorem tcp_release_rto_timer_armed (s : State) :
    armed (tcp_release_rto_timer s).trace = armed s.trace := by
  rw [tcp_release_rto_timer_trace, armed_append]
  cases h : s.tsk.retransmit <;> simp [armed]

@[simp]
theorem tcp_release_rto_timer_results (s : State) :
    results (tcp_release_rto_timer s).trace = results s.trace := by
  rw [tcp_release_rto_timer_trace, results_append]
  cases h : s.tsk.retransmit <;> simp [results]

@[simp]
theorem tcp_release_rto_timer_wakeups (s : State) :
    wakeups (tcp_release_rto_timer s).trace = wakeups s.trace := by
  rw [tcp_release_rto_timer_trace, wakeups_append]
  cases h : s.tsk.retransmit <;> simp [wakeups]

/-! ### The transmitter -/

@[simp]
theorem tcp_fill_header_seq (env : Env) (tsk : tcp_sock) (skb : sk_buff) :
    (tcp_fill_header env tsk skb).seq = tsk.tcb.seq := rfl
@[simp]
theorem tcp_fill_header_end_seq (env : Env) (tsk : tcp_sock) (skb : sk_buff) :
    (tcp_fill_header env tsk skb).end_seq = (tsk.tcb.seq + skb.dlen) % 2 ^ 32 := rfl
@[simp]
theorem tcp_fill_header_dlen (env : Env) (tsk : tcp_sock) (skb : sk_buff) :
    (tcp_fill_header env tsk skb).dlen = skb.dlen := rfl
@[simp]
theorem tcp_fill_header_payload (env : Env) (tsk : tcp_sock) (skb : sk_buff) :
    (tcp_fill_header env tsk skb).payload = skb.payload := rfl
@[simp]
theorem tcp_fill_header_fin (env : Env) (tsk : tcp_sock) (skb : sk_buff) :
    (tcp_fill_header env tsk skb).th.fin = skb.th.fin := rfl
@[simp]
theorem tcp_fill_header_syn (env : Env) (tsk : tcp_sock) (skb : sk_buff) :
    (tcp_fill_header env tsk skb).th.syn = skb.th.syn := rfl
@[simp]
theorem tcp_fill_header_rst (env : Env) (tsk : tcp_sock) (skb : sk_buff) :
    (tcp_fill_header env tsk skb).th.rst = skb.th.rst := rfl
@[simp]
theorem tcp_fill_header_psh (env : Env) (tsk : tcp_sock) (skb : sk_buff) :
    (tcp_fill_header env tsk skb).th.psh = skb.th.psh := rfl
@[simp]
theorem tcp_fill_header_ack (env : Env) (tsk : tcp_sock) (skb : sk_buff) :
    (tcp_fill_header env tsk skb).th.ack = skb.th.ack := rfl
@[simp]
theorem tcp_fill_header_th_seq (env : Env) (tsk : tcp_sock) (skb : sk_buff) :
    (tcp_fill_header env tsk skb).th.seq = htonl tsk.tcb.seq := rfl

theorem wire_seq_tcp_fill_header (env : Env) (tsk : tcp_sock) (skb : sk_buff)
    (h : tsk.tcb.seq < 2 ^ 32) : wire_seq (tcp_fill_header env tsk skb) = tsk.tcb.seq := by
  unfold wire_seq
  rw [tcp_fill_header_th_seq]
  exact ntohl_htonl _ h

@[simp]
theorem tcp_transmit_skb_skb (env : Env) (s : State) (skb : sk_buff) :
    (tcp_transmit_skb env s skb).skb = tcp_fill_header env s.tsk skb := rfl
@[simp]
theorem tcp_transmit_skb_rc (env : Env) (s : State) (skb : sk_buff) :
    (tcp_transmit_skb env s skb).rc = env.ip_output s.tsk.sk (tcp_fill_header env s.tsk skb) := rfl
@[simp]
theorem tcp_transmit_skb_tsk (env : Env) (s : State) (skb : sk_buff) :
    (tcp_transmit_skb env s skb).s.tsk = s.tsk := rfl
@[simp]
theorem tcp_transmit_skb_timers (env : Env) (s : State) (skb : sk_buff) :
    (tcp_transmit_skb env s skb).s.timers = s.timers := rfl
@[simp]
theorem tcp_transmit_skb_next (env : Env) (s : State) (skb : sk_buff) :
    (tcp_transmit_skb env s skb).s.next_timer = s.next_timer := rfl
@[simp]
theorem tcp_transmit_skb_locked (env : Env) (s : State) (skb : sk_buff) :
    (tcp_transmit_skb env s skb).s.locked = s.locked := rfl
@[simp]
theorem tcp_transmit_skb_trace (env : Env) (s : State) (skb : sk_buff) :
    (tcp_transmit_skb env s skb).s.trace
      = s.trace ++ [Event.ip_output (tcp_fill_header env s.tsk skb)
          (env.ip_output s.tsk.sk (tcp_fill_header env s.tsk skb))] := rfl

/-! ### The retransmission timer -/

theorem tcp_connect_rto_established (env : Env) (s : State)
    (h : s.tsk.sk.state = TCP_ESTABLISHED) : tcp_connect_rto env s = s := by
  simp [tcp_connect_rto, h]

theorem tcp_connect_rto_timeout (env : Env) (s : State)
    (h : s.tsk.sk.state ≠ TCP_ESTABLISHED) (hb : s.tsk.backoff > env.TCP_CONN_RETRIES) :
    tcp_connect_rto env s
      = wait_wakeup (tcp_set_state
          { s with tsk := { s.tsk with sk := { s.tsk.sk with err := -env.ETIMEDOUT } } }
          TCP_CLOSE) := by
  simp [tcp_connect_rto, h, hb]

theorem tcp_connect_rto_backoff (env : Env) (s : State)
    (h : s.tsk.sk.state ≠ TCP_ESTABLISHED) (hb : s.tsk.backoff ≤ env.TCP_CONN_RETRIES) :
    tcp_connect_rto env s
      = arm_retransmit { s with tsk := { s.tsk with backoff := s.tsk.backoff + 1 } }
          (env.TCP_SYN_BACKOFF <<< (s.tsk.backoff + 1)) := by
  have hb' : ¬ s.tsk.backoff > env.TCP_CONN_RETRIES := by omega
  simp [tcp_connect_rto, h, hb']

@[simp]
theorem tcp_connect_rto_queue (env : Env) (s : State) :
    (tcp_connect_rto env s).tsk.sk.write_queue = s.tsk.sk.write_queue := by
  unfold tcp_connect_rto
  split_ifs <;> simp

@[simp]
theorem tcp_connect_rto_tcb (env : Env) (s : State) :
    (tcp_connect_rto env s).tsk.tcb = s.tsk.tcb := by
  unfold tcp_connect_rto
  split_ifs <;> simp

@[simp]
theorem tcp_connect_rto_sent (env : Env) (s : State) :
    sent (tcp_connect_rto env s).trace = sent s.trace := by
  unfold tcp_connect_rto
  split_ifs <;> simp [sent_append, sent]

@[simp]
theorem tcp_connect_rto_results (env : Env) (s : State) :
    results (tcp_connect_rto env s).trace = results s.trace := by
  unfold tcp_connect_rto
  split_ifs <;> simp [results_append, results]

@[simp]
theorem tcp_connect_rto_locked (env : Env) (s : State) :
    (tcp_connect_rto env s).locked = s.locked := by
  unfold tcp_connect_rto
  split_ifs <;> simp

@[simp]
theorem rto_rearm_queue (env : Env) (syn : Bool) (s : State) :
    (rto_rearm env syn s).tsk.sk.write_queue = s.tsk.sk.write_queue := by
  unfold rto_rearm
  split_ifs <;> simp

@[simp]
theorem rto_rearm_tcb (env : Env) (syn : Bool) (s : State) :
    (rto_rearm env syn s).tsk.tcb = s.tsk.tcb := by
  unfold rto_rearm
  split_ifs <;> simp

@[simp]
theorem rto_rearm_sent (env : Env) (syn : Bool) (s : State) :
    sent (rto_rearm env syn s).trace = sent s.trace := by
  unfold rto_rearm
  split_ifs <;> simp [sent_append, sent]

@[simp]
theorem rto_rearm_results (env : Env) (syn : Bool) (s : State) :
    results (rto_rearm env syn s).trace = results s.trace := by
  unfold rto_rearm
  split_ifs <;> simp [results_append, results]

@[simp]
theorem rto_rearm_locked (env : Env) (syn : Bool) (s : State) :
    (rto_rearm env syn s).locked = s.locked := by
  unfold rto_rearm
  split_ifs <;> simp

@[simp]
theorem rto_fin_queue (env : Env) (fin : Bool) (s : State) :
    (rto_fin env fin s).tsk.sk.write_queue = s.tsk.sk.write_queue := by
  unfold rto_fin
  split_ifs <;> simp

@[simp]
theorem rto_fin_tcb (env : Env) (fin : Bool) (s : State) :
    (rto_fin env fin s).tsk.tcb = s.tsk.tcb := by
  unfold rto_fin
  split_ifs <;> simp

@[simp]
theorem rto_fin_backoff (env : Env) (fin : Bool) (s : State) :
    (rto_fin env fin s).tsk.backoff = s.tsk.backoff := by
  unfold rto_fin
  split_ifs <;> simp

@[simp]
theorem rto_fin_retransmit (env : Env) (fin : Bool) (s : State) :
    (rto_fin env fin s).tsk.retransmit = s.tsk.retransmit := by
  unfold rto_fin
  split_ifs <;> simp

@[simp]
theorem rto_fin_err (env : Env) (fin : Bool) (s : State) :
    (rto_fin env fin s).tsk.sk.err = s.tsk.sk.err := by
  unfold rto_fin
  split_ifs <;> simp

@[simp]
theorem rto_fin_timers (env : Env) (fin : Bool) (s : State) :
    (rto_fin env fin s).timers = s.timers := by
  unfold rto_fin
  split_ifs <;> simp

@[simp]
theorem rto_fin_next (env : Env) (fin : Bool) (s : State) :
    (rto_fin env fin s).next_timer = s.next_timer := by
  unfold rto_fin
  split_ifs <;> simp

@[simp]
theorem rto_fin_locked (env : Env) (fin : Bool) (s : State) :
    (rto_fin env fin s).locked = s.locked := by
  unfold rto_fin
  split_ifs <;> simp

@[simp]
theorem rto_fin_sent (env : Env) (fin : Bool) (s : State) :
    sent (rto_fin env fin s).trace = sent s.trace := by
  unfold rto_fin
  split_ifs <;> simp [sent_append, sent]

@[simp]
theorem rto_fin_results (env : Env) (fin : Bool) (s : State) :
    results (rto_fin env fin s).trace = results s.trace := by
  unfold rto_fin
  split_ifs <;> simp [results_append, results]

@[simp]
theorem rto_fin_armed (env : Env) (fin : Bool) (s : State) :
    armed (rto_fin env fin s).trace = armed s.trace := by
  unfold rto_fin
  split_ifs <;> simp [armed_append, armed]

@[simp]
theorem rto_fin_wakeups (env : Env) (fin : Bool) (s : State) :
    wakeups (rto_fin env fin s).trace = wakeups s.trace := by
  unfold rto_fin
  split_ifs <;> simp [wakeups_append, wakeups]

theorem rto_fin_false (env : Env) (s : State) : rto_fin env false s = s := by
  simp [rto_fin]

@[simp]
theorem rto_transmitted_tsk (env : Env) (s : State) (skb : sk_buff) :
    (rto_transmitted env s skb).tsk
      = { s.tsk with
          retransmit := none,
          sk := { s.tsk.sk with
            write_queue := tcp_fill_header env { s.tsk with retransmit := none }
              (skb_reset_header skb) :: s.tsk.sk.write_queue.tail } } := by
  simp [rto_transmitted]

@[simp]
theorem rto_transmitted_timers (env : Env) (s : State) (skb : sk_buff) :
    (rto_transmitted env s skb).timers
      = s.timers.filter (fun t => some t.id != s.tsk.retransmit) := by
  simp [rto_transmitted]

@[simp]
theorem rto_transmitted_next (env : Env) (s : State) (skb : sk_buff) :
    (rto_transmitted env s skb).next_timer = s.next_timer := by
  simp [rto_transmitted]

@[simp]
theorem rto_transmitted_locked (env : Env) (s : State) (skb : sk_buff) :
    (rto_transmitted env s skb).locked = true := by
  simp [rto_transmitted]

@[simp]
theorem rto_transmitted_sent (env : Env) (s : State) (skb : sk_buff) :
    sent (rto_transmitted env s skb).trace
      = sent s.trace ++ [tcp_fill_header env { s.tsk with retransmit := none }
          (skb_reset_header skb)] := by
  simp [rto_transmitted, sent_append, sent]

@[simp]
theorem rto_transmitted_armed (env : Env) (s : State) (skb : sk_buff) :
    armed (rto_transmitted env s skb).trace = armed s.trace := by
  simp [rto_transmitted, armed_append, armed]

@[simp]
theorem rto_transmitted_wakeups (env : Env) (s : State) (skb : sk_buff) :
    wakeups (rto_transmitted env s skb).trace = wakeups s.trace := by
  simp [rto_transmitted, wakeups_append, wakeups]

theorem tcp_retransmission_timeout_nil (env : Env) (s : State)
    (hq : s.tsk.sk.write_queue = []) :
    tcp_retransmission_timeout env s
      = pthread_mutex_unlock
          (tcp_notify_user (tcp_release_rto_timer (pthread_mutex_lock s))) := by
  have hq' : (tcp_release_rto_timer (pthread_mutex_lock s)).tsk.sk.write_queue = [] := by
    simp [hq]
  unfold tcp_retransmission_timeout
  simp only [hq']

theorem tcp_retransmission_timeout_cons (env : Env) (s : State) (skb : sk_buff)
    (rest : List sk_buff) (hq : s.tsk.sk.write_queue = skb :: rest) :
    tcp_retransmission_timeout env s
      = pthread_mutex_unlock
          (rto_fin env skb.th.fin (rto_rearm env skb.th.syn (rto_transmitted env s skb))) := by
  have hq' : (tcp_release_rto_timer (pthread_mutex_lock s)).tsk.sk.write_queue = skb :: rest := by
    simp [hq]
  unfold tcp_retransmission_timeout
  simp only [hq']
  rfl

/-! ## C1: sequence number stamped by `tcp_send` -/

/-- C1: for every connection (with `snd_nxt` a 32-bit value) and every payload, `tcp_send`
hands exactly one segment to the network layer and appends it to the write queue; the
segment has ACK and PSH set and carries the payload, its stamped (wire) and recorded
sequence numbers equal `snd_nxt` before the call, and `snd_nxt` after the call is that value
plus the payload length, modulo `2 ^ 32`. -/
theorem tcp_send_seq (env : Env) (s : State) (buf : List Nat)
    (h : s.tsk.tcb.snd_nxt < 2 ^ 32) :
    ∃ skb : sk_buff,
      sent (tcp_send env s buf).1.trace = sent s.trace ++ [skb] ∧
      (tcp_send env s buf).1.tsk.sk.write_queue = s.tsk.sk.write_queue ++ [skb] ∧
      skb.th.ack = true ∧ skb.th.psh = true ∧ skb.payload = buf ∧
      wire_seq skb = s.tsk.tcb.snd_nxt ∧ skb.seq = s.tsk.tcb.snd_nxt ∧
      (tcp_send env s buf).1.tsk.tcb.snd_nxt = (s.tsk.tcb.snd_nxt + buf.length) % 2 ^ 32 := by
  simp [tcp_send, apply_ite, tcp_queue_transmit_skb, tcp_transmit_skb, timer_add,
    arm_retransmit, pthread_mutex_lock, pthread_mutex_unlock, skb_queue_tail, store_tail, sent_append, sent,
    tcp_fill_header, skb_push, tcp_alloc_skb, alloc_skb, skb_reserve, wire_seq]
  exact ntohl_htonl _ h

/-- C1 at `snd_nxt = 100` with payload "hello" on an ESTABLISHED connection: the segment
goes out with sequence number 100, `snd_nxt` becomes 105 and the call returns 5. -/
theorem tcp_send_seq_witness :
    (conn TCP_ESTABLISHED 100 100).tsk.tcb.snd_nxt < 2 ^ 32 ∧
    (∃ skb : sk_buff,
      sent (tcp_send env0 (conn TCP_ESTABLISHED 100 100) hello).1.trace
        = sent (conn TCP_ESTABLISHED 100 100).trace ++ [skb] ∧
      (tcp_send env0 (conn TCP_ESTABLISHED 100 100) hello).1.tsk.sk.write_queue
        = (conn TCP_ESTABLISHED 100 100).tsk.sk.write_queue ++ [skb] ∧
      skb.th.ack = true ∧ skb.th.psh = true ∧ skb.payload = hello ∧
      wire_seq skb = (conn TCP_ESTABLISHED 100 100).tsk.tcb.snd_nxt ∧
      skb.seq = (conn TCP_ESTABLISHED 100 100).tsk.tcb.snd_nxt ∧
      (tcp_send env0 (conn TCP_ESTABLISHED 100 100) hello).1.tsk.tcb.snd_nxt
        = ((conn TCP_ESTABLISHED 100 100).tsk.tcb.snd_nxt + hello.length) % 2 ^ 32) ∧
    (sent (tcp_send env0 (conn TCP_ESTABLISHED 100 100) hello).1.trace).map wire_seq = [100] ∧
    (tcp_send env0 (conn TCP_ESTABLISHED 100 100) hello).1.tsk.tcb.snd_nxt = 105 ∧
    (tcp_send env0 (conn TCP_ESTABLISHED 100 100) hello).2 = 5 := by
  refine ⟨by decide, tcp_send_seq env0 (conn TCP_ESTABLISHED 100 100) hello (by decide),
    ?_, ?_, ?_⟩
  · decide
  · decide
  · decide

/-! ## C2: return value of `tcp_send` -/

/-- C2: for every connection and payload, `tcp_send` makes exactly one network-layer send;
with `rc` its result, `tcp_send` returns the payload length when `rc` is the payload length
plus the link, IP and TCP header lengths and `-1` for every other `rc`; whatever `rc` is, the
segment is in the write queue and `snd_nxt` has been advanced by the payload length. -/
theorem tcp_send_return (env : Env) (s : State) (buf : List Nat) :
    ∃ (skb : sk_buff) (rc : Int),
      sent (tcp_send env s buf).1.trace = sent s.trace ++ [skb] ∧
      results (tcp_send env s buf).1.trace = results s.trace ++ [rc] ∧
      (tcp_send env s buf).2 =
        (if rc = (buf.length : Int) + (env.ETH_HDR_LEN + env.IP_HDR_LEN + env.TCP_HDR_LEN)
          then (buf.length : Int) else -1) ∧
      (tcp_send env s buf).1.tsk.sk.write_queue = s.tsk.sk.write_queue ++ [skb] ∧
      (tcp_send env s buf).1.tsk.tcb.snd_nxt = (s.tsk.tcb.snd_nxt + buf.length) % 2 ^ 32 := by
  simp [tcp_send, apply_ite, tcp_queue_transmit_skb, tcp_transmit_skb, timer_add,
    arm_retransmit, pthread_mutex_lock, pthread_mutex_unlock, skb_queue_tail, store_tail, sent_append, sent,
    results_append, results]
  split_ifs <;> omega

/-- C2 with a network layer that rejects every buffer: `tcp_send` of "hello" at
`snd_nxt = 100` returns `-1`, yet the segment is queued and `snd_nxt` is 105. -/
theorem tcp_send_return_witness :
    (∃ (skb : sk_buff) (rc : Int),
      sent (tcp_send env_down (conn TCP_ESTABLISHED 100 100) hello).1.trace
        = sent (conn TCP_ESTABLISHED 100 100).trace ++ [skb] ∧
      results (tcp_send env_down (conn TCP_ESTABLISHED 100 100) hello).1.trace
        = results (conn TCP_ESTABLISHED 100 100).trace ++ [rc] ∧
      (tcp_send env_down (conn TCP_ESTABLISHED 100 100) hello).2 =
        (if rc = (hello.length : Int)
            + (env_down.ETH_HDR_LEN + env_down.IP_HDR_LEN + env_down.TCP_HDR_LEN)
          then (hello.length : Int) else -1) ∧
      (tcp_send env_down (conn TCP_ESTABLISHED 100 100) hello).1.tsk.sk.write_queue
        = (conn TCP_ESTABLISHED 100 100).tsk.sk.write_queue ++ [skb] ∧
      (tcp_send env_down (conn TCP_ESTABLISHED 100 100) hello).1.tsk.tcb.snd_nxt
        = ((conn TCP_ESTABLISHED 100 100).tsk.tcb.snd_nxt + hello.length) % 2 ^ 32) ∧
    results (tcp_send env_down (conn TCP_ESTABLISHED 100 100) hello).1.trace = [-1] ∧
    (tcp_send env_down (conn TCP_ESTABLISHED 100 100) hello).2 = -1 ∧
    (tcp_send env_down (conn TCP_ESTABLISHED 100 100) hello).1.tsk.sk.write_queue.length = 1 ∧
    (tcp_send env_down (conn TCP_ESTABLISHED 100 100) hello).1.tsk.tcb.snd_nxt = 105 := by
  refine ⟨tcp_send_return env_down (conn TCP_ESTABLISHED 100 100) hello, ?_, ?_, ?_, ?_⟩
  · decide
  · decide
  · decide
  · decide

/-! ## C3: retransmission timers are not released by `tcp_send` -/

/-- C3: on a connection with no timer, two consecutive `tcp_send` calls leave two live
retransmission timers; the handle of the first is overwritten without being released, so the
claim that at most one retransmission timer is live fails on the code. -/
theorem tcp_send_twice_two_timers :
    (conn TCP_ESTABLISHED 100 100).timers = [] ∧
    (tcp_send env0 (conn TCP_ESTABLISHED 100 100) [97]).1.timers
      = [{ id := 0, expires := 500 }] ∧
    two_sends.timers = [{ id := 0, expires := 500 }, { id := 1, expires := 500 }] ∧
    two_sends.tsk.retransmit = some 1 ∧
    two_sends.timers.length = 2 := by
  decide

/-! ## C4: retransmission re-stamps the head from the cursor -/

/-- C4, as stated, fails: after `tcp_send` of "a" (recorded range 100..101) and a further
`tcp_send` of "b", a timer firing records the range 101..102 on the head segment "a" and puts
sequence number 101 on the wire. -/
theorem retransmit_after_send_restamps :
    (write_queue_head (tcp_send env0 (conn TCP_ESTABLISHED 100 100) [97]).1).map seq_view
      = some (100, 101, 100, [97]) ∧
    (write_queue_head two_sends).map seq_view = some (100, 101, 100, [97]) ∧
    (write_queue_head (tcp_retransmission_timeout env0 two_sends)).map seq_view
      = some (101, 102, 101, [97]) ∧
    (write_queue_head (tcp_retransmission_timeout env0 two_sends)).map seq_view
      ≠ (write_queue_head two_sends).map seq_view := by
  refine ⟨?_, ?_, ?_, ?_⟩
  · decide
  · decide
  · decide
  · decide

/-- C4, amended: for every connection whose write queue has head `skb`, recorded by an
earlier transmission, a timer firing with the TCB cursor `seq` still equal to the head's
recorded sequence number leaves the head's recorded range unchanged and puts the same
sequence number and payload on the wire. -/
theorem retransmit_same_range (env : Env) (s : State) (skb : sk_buff) (rest : List sk_buff)
    (hq : s.tsk.sk.write_queue = skb :: rest)
    (hseq : skb.seq = s.tsk.tcb.seq)
    (hend : skb.end_seq = (skb.seq + skb.dlen) % 2 ^ 32)
    (hwire : wire_seq skb = skb.seq) :
    ∃ skb' : sk_buff,
      (tcp_retransmission_timeout env s).tsk.sk.write_queue = skb' :: rest ∧
      sent (tcp_retransmission_timeout env s).trace = sent s.trace ++ [skb'] ∧
      skb'.seq = skb.seq ∧ skb'.end_seq = skb.end_seq ∧
      wire_seq skb' = wire_seq skb ∧ skb'.payload = skb.payload := by
  have hlt : s.tsk.tcb.seq < 2 ^ 32 := by
    rw [← hseq, ← hwire]; exact htonl_lt _
  refine ⟨tcp_fill_header env { s.tsk with retransmit := none } (skb_reset_header skb),
    ?_, ?_, ?_, ?_, ?_, ?_⟩
  · rw [tcp_retransmission_timeout_cons env s skb rest hq]
    simp [hq]
  · rw [tcp_retransmission_timeout_cons env s skb rest hq]
    simp [sent_append, sent]
  · simp [hseq]
  · simp [hend, hseq, skb_reset_header]
  · rw [wire_seq_tcp_fill_header env _ _ (by simpa using hlt), hwire, hseq]
  · simp [skb_reset_header]

/-- C4 amended, at the connection that has just sent "hello" with `snd_nxt = 100`: the
firing retransmits the range 100..105. -/
theorem retransmit_same_range_witness :
    hello_sent.tsk.sk.write_queue = hello_skb :: [] ∧
    hello_skb.seq = hello_sent.tsk.tcb.seq ∧
    hello_skb.end_seq = (hello_skb.seq + hello_skb.dlen) % 2 ^ 32 ∧
    wire_seq hello_skb = hello_skb.seq ∧
    (∃ skb' : sk_buff,
      (tcp_retransmission_timeout env0 hello_sent).tsk.sk.write_queue = skb' :: [] ∧
      sent (tcp_retransmission_timeout env0 hello_sent).trace = sent hello_sent.trace ++ [skb'] ∧
      skb'.seq = hello_skb.seq ∧ skb'.end_seq = hello_skb.end_seq ∧
      wire_seq skb' = wire_seq hello_skb ∧ skb'.payload = hello_skb.payload) ∧
    (write_queue_head (tcp_retransmission_timeout env0 hello_sent)).map seq_view
      = some (100, 105, 100, hello) := by
  refine ⟨by decide, by decide, by decide, by decide,
    retransmit_same_range env0 hello_sent hello_skb [] (by decide) (by decide) (by decide)
      (by decide), by decide⟩

/-! ## C5: sequence numbers of successive segments -/

theorem tcp_send_effect (env : Env) (s : State) (buf : List Nat)
    (h : s.tsk.tcb.snd_nxt < 2 ^ 32) :
    ∃ skb : sk_buff,
      sent (tcp_send env s buf).1.trace = sent s.trace ++ [skb] ∧
      wire_seq skb = s.tsk.tcb.snd_nxt ∧
      (tcp_send env s buf).1.tsk.tcb.snd_nxt = (s.tsk.tcb.snd_nxt + buf.length) % 2 ^ 32 := by
  simp [tcp_send, apply_ite, tcp_queue_transmit_skb, sent_append, sent, wire_seq]
  exact ntohl_htonl _ h

theorem tcp_send_all_sent (env : Env) (bufs : List (List Nat)) :
    ∀ s : State, s.tsk.tcb.snd_nxt < 2 ^ 32 →
      ∃ L : List sk_buff,
        sent (tcp_send_all env s bufs).trace = sent s.trace ++ L ∧
        L.map wire_seq = seq_cursors s.tsk.tcb.snd_nxt bufs := by
  induction bufs with
  | nil => intro s _; exact ⟨[], by simp [tcp_send_all], rfl⟩
  | cons buf bufs ih =>
    intro s hs
    obtain ⟨skb, h1, h2, h3⟩ := tcp_send_effect env s buf hs
    have hlt : (tcp_send env s buf).1.tsk.tcb.snd_nxt < 2 ^ 32 := by
      rw [h3]; exact Nat.mod_lt _ (by norm_num)
    obtain ⟨L, hL1, hL2⟩ := ih (tcp_send env s buf).1 hlt
    refine ⟨skb :: L, ?_, ?_⟩
    · simp [tcp_send_all, hL1, h1]
    · simp [seq_cursors, h2, hL2, h3]

theorem seq_cursors_length (bufs : List (List Nat)) :
    ∀ c : Nat, (seq_cursors c bufs).length = bufs.length := by
  induction bufs with
  | nil => intro c; rfl
  | cons buf bufs ih => intro c; simp [seq_cursors, ih]

theorem seq_cursors_mem (bufs : List (List Nat)) :
    ∀ (c x : Nat), c < 2 ^ 32 → (∀ b ∈ bufs, b ≠ []) → x ∈ seq_cursors c bufs →
      ∃ k, k < (bufs.map List.length).sum ∧ x = (c + k) % 2 ^ 32 := by
  induction bufs with
  | nil => intro c x _ _ hx; simp [seq_cursors] at hx
  | cons buf bufs ih =>
    intro c x hc hne hx
    have hb : 0 < buf.length := List.length_pos.2 (hne buf (by simp))
    simp only [seq_cursors, List.mem_cons] at hx
    rcases hx with hx | hx
    · refine ⟨0, ?_, ?_⟩
      · simp only [List.map_cons, List.sum_cons]; omega
      · rw [hx]; omega
    · obtain ⟨k, hk, hxk⟩ := ih _ x (Nat.mod_lt _ (by norm_num))
        (fun b hb' => hne b (List.mem_cons_of_mem _ hb')) hx
      refine ⟨buf.length + k, ?_, ?_⟩
      · simp only [List.map_cons, List.sum_cons]; omega
      · rw [hxk]; omega

theorem seq_cursors_nodup (bufs : List (List Nat)) :
    ∀ c : Nat, c < 2 ^ 32 → (∀ b ∈ bufs, b ≠ []) → (bufs.map List.length).sum < 2 ^ 32 →
      (seq_cursors c bufs).Nodup := by
  induction bufs with
  | nil => intro c _ _ _; simp [seq_cursors]
  | cons buf bufs ih =>
    intro c hc hne htot
    have hb : 0 < buf.length := List.length_pos.2 (hne buf (by simp))
    have hne' : ∀ b ∈ bufs, b ≠ [] := fun b hb' => hne b (List.mem_cons_of_mem _ hb')
    simp only [List.map_cons, List.sum_cons] at htot
    simp only [seq_cursors, List.nodup_cons]
    constructor
    · intro hmem
      obtain ⟨k, hk, hck⟩ := seq_cursors_mem bufs _ c (Nat.mod_lt _ (by norm_num)) hne' hmem
      omega
    · exact ih _ (Nat.mod_lt _ (by norm_num)) hne' (by omega)

/-- C5, as stated, fails: `tcp_send` of "a" at `snd_nxt = 100` followed by `tcp_send_fin`
hands two distinct segments to the network layer, the data segment and the FIN, both stamped
with sequence number 100. -/
theorem tcp_send_fin_reuses_seq :
    (sent (tcp_send_fin env0 (tcp_send env0 (conn TCP_ESTABLISHED 100 100) [97]).1).1.trace).map
        wire_seq = [100, 100] ∧
    (sent (tcp_send_fin env0 (tcp_send env0 (conn TCP_ESTABLISHED 100 100) [97]).1).1.trace).map
        (fun skb => (skb.th.fin, skb.payload)) = [(false, [97]), (true, [])] ∧
    ¬ ((sent (tcp_send_fin env0
        (tcp_send env0 (conn TCP_ESTABLISHED 100 100) [97]).1).1.trace).map wire_seq).Nodup := by
  refine ⟨?_, ?_, ?_⟩
  · decide
  · decide
  · decide

/-- C5, amended: for every sequence of `tcp_send` calls with non-empty payloads on one
connection, with fewer than `2 ^ 32` sequence numbers consumed in total, each segment is
stamped with the value of `snd_nxt` at its call and no two segments are stamped with the same
sequence number. -/
theorem tcp_send_all_seqs_nodup (env : Env) (s : State) (bufs : List (List Nat))
    (hs : s.tsk.tcb.snd_nxt < 2 ^ 32) (hne : ∀ b ∈ bufs, b ≠ [])
    (htot : (bufs.map List.length).sum < 2 ^ 32) :
    ∃ L : List sk_buff,
      sent (tcp_send_all env s bufs).trace = sent s.trace ++ L ∧
      L.map wire_seq = seq_cursors s.tsk.tcb.snd_nxt bufs ∧
      L.length = bufs.length ∧
      (L.map wire_seq).Nodup := by
  obtain ⟨L, h1, h2⟩ := tcp_send_all_sent env bufs s hs
  refine ⟨L, h1, h2, ?_, ?_⟩
  · have := congrArg List.length h2
    simpa [seq_cursors_length] using this
  · rw [h2]
    exact seq_cursors_nodup bufs _ hs hne htot

/-- C5 amended, at three payloads sent from `snd_nxt = 4294967294`: the segments carry the
sequence numbers 4294967294, 3 and 4, across the 32-bit wrap. -/
theorem tcp_send_all_seqs_nodup_witness :
    (conn TCP_ESTABLISHED 0 4294967294).tsk.tcb.snd_nxt < 2 ^ 32 ∧
    (∀ b ∈ [hello, [97], [98, 99]], b ≠ []) ∧
    (([hello, [97], [98, 99]] : List (List Nat)).map List.length).sum < 2 ^ 32 ∧
    (∃ L : List sk_buff,
      sent (tcp_send_all env0 (conn TCP_ESTABLISHED 0 4294967294)
          [hello, [97], [98, 99]]).trace
        = sent (conn TCP_ESTABLISHED 0 4294967294).trace ++ L ∧
      L.map wire_seq
        = seq_cursors (conn TCP_ESTABLISHED 0 4294967294).tsk.tcb.snd_nxt
            [hello, [97], [98, 99]] ∧
      L.length = [hello, [97], [98, 99]].length ∧
      (L.map wire_seq).Nodup) ∧
    (sent (tcp_send_all env0 (conn TCP_ESTABLISHED 0 4294967294)
        [hello, [97], [98, 99]]).trace).map wire_seq = [4294967294, 3, 4] := by
  refine ⟨by decide, by decide, by decide,
    tcp_send_all_seqs_nodup env0 (conn TCP_ESTABLISHED 0 4294967294) [hello, [97], [98, 99]]
      (by decide) (by decide) (by decide), by decide⟩

/-! ## C6: `tcp_queue_fin` -/

/-- C6: for every connection, `tcp_queue_fin` appends a FIN+ACK segment to the tail of the
write queue; if the queue was non-empty before the call nothing is handed to the network
layer, `snd_nxt` is unchanged, no timer is armed and the call returns 0; if the queue was
empty before the call that segment is handed to the network layer exactly once and `snd_nxt`
is advanced by one (modulo `2 ^ 32`). -/
theorem tcp_queue_fin_spec (env : Env) (s : State) :
    ∃ skb : sk_buff,
      (tcp_queue_fin env s).1.tsk.sk.write_queue = s.tsk.sk.write_queue ++ [skb] ∧
      skb.th.fin = true ∧ skb.th.ack = true ∧ skb.dlen = 0 ∧
      (s.tsk.sk.write_queue ≠ [] →
        sent (tcp_queue_fin env s).1.trace = sent s.trace ∧
        (tcp_queue_fin env s).1.tsk.tcb.snd_nxt = s.tsk.tcb.snd_nxt ∧
        armed (tcp_queue_fin env s).1.trace = armed s.trace ∧
        (tcp_queue_fin env s).1.timers = s.timers ∧
        (tcp_queue_fin env s).1.tsk.retransmit = s.tsk.retransmit ∧
        (tcp_queue_fin env s).2 = 0) ∧
      (s.tsk.sk.write_queue = [] →
        sent (tcp_queue_fin env s).1.trace = sent s.trace ++ [skb] ∧
        (tcp_queue_fin env s).1.tsk.tcb.snd_nxt = (s.tsk.tcb.snd_nxt + 1) % 2 ^ 32) := by
  by_cases hq : s.tsk.sk.write_queue = []
  · simp [tcp_queue_fin, hq, sent_append, sent, tcp_alloc_skb, alloc_skb, skb_reserve]
  · simp [tcp_queue_fin, hq, sent_append, sent, armed_append, armed, tcp_alloc_skb, alloc_skb,
      skb_reserve]

/-- C6 at the connection that has "hello" queued: the FIN is appended, nothing is
transmitted, `snd_nxt` stays 105, no timer is armed and the call returns 0. -/
theorem tcp_queue_fin_spec_witness :
    hello_sent.tsk.sk.write_queue ≠ [] ∧
    (sent (tcp_queue_fin env0 hello_sent).1.trace = sent hello_sent.trace ∧
      (tcp_queue_fin env0 hello_sent).1.tsk.tcb.snd_nxt = hello_sent.tsk.tcb.snd_nxt ∧
      armed (tcp_queue_fin env0 hello_sent).1.trace = armed hello_sent.trace ∧
      (tcp_queue_fin env0 hello_sent).1.timers = hello_sent.timers ∧
      (tcp_queue_fin env0 hello_sent).1.tsk.retransmit = hello_sent.tsk.retransmit ∧
      (tcp_queue_fin env0 hello_sent).2 = 0) ∧
    (tcp_queue_fin env0 hello_sent).1.tsk.tcb.snd_nxt = 105 ∧
    ((tcp_queue_fin env0 hello_sent).1.tsk.sk.write_queue.map
      (fun skb => (skb.th.fin, skb.th.ack, skb.payload))) = [(false, true, hello), (true, true, [])] := by
  obtain ⟨_, _, _, _, _, h, _⟩ := tcp_queue_fin_spec env0 hello_sent
  exact ⟨by decide, h (by decide), by decide, by decide⟩

/-! ## C7: the FIN sent by `tcp_queue_fin` on an empty queue -/

/-- C7, as stated, fails: on a connection with an empty write queue, cursor `seq = 195` and
`snd_nxt = 200`, the FIN+ACK goes out with sequence number 195, not 200; `snd_nxt` becomes
201. -/
theorem tcp_queue_fin_stamps_cursor :
    (conn TCP_ESTABLISHED 195 200).tsk.sk.write_queue = [] ∧
    (conn TCP_ESTABLISHED 195 200).tsk.tcb.snd_nxt = 200 ∧
    (sent (tcp_queue_fin env0 (conn TCP_ESTABLISHED 195 200)).1.trace).map
      (fun skb => (skb.th.fin, skb.th.ack, wire_seq skb)) = [(true, true, 195)] ∧
    (tcp_queue_fin env0 (conn TCP_ESTABLISHED 195 200)).1.tsk.tcb.snd_nxt = 201 := by
  refine ⟨?_, ?_, ?_, ?_⟩
  · decide
  · decide
  · decide
  · decide

/-- C7, amended: for every connection whose write queue is empty (with the cursor `seq` a
32-bit value), `tcp_queue_fin` immediately hands to the network layer one FIN+ACK segment
whose stamped and recorded sequence number is the TCB cursor `seq` at the call, and `snd_nxt`
after the call is its value before the call plus one (modulo `2 ^ 32`). -/
theorem tcp_queue_fin_empty_seq (env : Env) (s : State)
    (hq : s.tsk.sk.write_queue = []) (hseq : s.tsk.tcb.seq < 2 ^ 32) :
    ∃ skb : sk_buff,
      sent (tcp_queue_fin env s).1.trace = sent s.trace ++ [skb] ∧
      (tcp_queue_fin env s).1.tsk.sk.write_queue = [skb] ∧
      skb.th.fin = true ∧ skb.th.ack = true ∧
      wire_seq skb = s.tsk.tcb.seq ∧ skb.seq = s.tsk.tcb.seq ∧
      (tcp_queue_fin env s).1.tsk.tcb.snd_nxt = (s.tsk.tcb.snd_nxt + 1) % 2 ^ 32 := by
  simp [tcp_queue_fin, hq, sent_append, sent, tcp_alloc_skb, alloc_skb, skb_reserve, wire_seq]
  exact ntohl_htonl _ hseq

/-- C7 amended, at `seq = snd_nxt = 200`: the FIN+ACK goes out with sequence number 200 and
`snd_nxt` becomes 201. -/
theorem tcp_queue_fin_empty_seq_witness :
    (conn TCP_ESTABLISHED 200 200).tsk.sk.write_queue = [] ∧
    (conn TCP_ESTABLISHED 200 200).tsk.tcb.seq < 2 ^ 32 ∧
    (∃ skb : sk_buff,
      sent (tcp_queue_fin env0 (conn TCP_ESTABLISHED 200 200)).1.trace
        = sent (conn TCP_ESTABLISHED 200 200).trace ++ [skb] ∧
      (tcp_queue_fin env0 (conn TCP_ESTABLISHED 200 200)).1.tsk.sk.write_queue = [skb] ∧
      skb.th.fin = true ∧ skb.th.ack = true ∧
      wire_seq skb = (conn TCP_ESTABLISHED 200 200).tsk.tcb.seq ∧
      skb.seq = (conn TCP_ESTABLISHED 200 200).tsk.tcb.seq ∧
      (tcp_queue_fin env0 (conn TCP_ESTABLISHED 200 200)).1.tsk.tcb.snd_nxt
        = ((conn TCP_ESTABLISHED 200 200).tsk.tcb.snd_nxt + 1) % 2 ^ 32) ∧
    (sent (tcp_queue_fin env0 (conn TCP_ESTABLISHED 200 200)).1.trace).map
      (fun skb => (skb.th.fin, skb.th.ack, wire_seq skb)) = [(true, true, 200)] ∧
    (tcp_queue_fin env0 (conn TCP_ESTABLISHED 200 200)).1.tsk.tcb.snd_nxt = 201 := by
  refine ⟨by decide, by decide,
    tcp_queue_fin_empty_seq env0 (conn TCP_ESTABLISHED 200 200) (by decide) (by decide),
    by decide, by decide⟩

/-! ## C8, C9, C10: connection retry with exponential backoff -/

theorem rto_syn_backoff (env : Env) (s : State) (skb : sk_buff) (rest : List sk_buff)
    (hst : s.tsk.sk.state ≠ TCP_ESTABLISHED) (hq : s.tsk.sk.write_queue = skb :: rest)
    (hsyn : skb.th.syn = true) (hb : s.tsk.backoff ≤ env.TCP_CONN_RETRIES) :
    tcp_retransmission_timeout env s
      = pthread_mutex_unlock (rto_fin env skb.th.fin
          (arm_retransmit
            { rto_transmitted env s skb with
              tsk := { (rto_transmitted env s skb).tsk with backoff := s.tsk.backoff + 1 } }
            (env.TCP_SYN_BACKOFF <<< (s.tsk.backoff + 1)))) := by
  rw [tcp_retransmission_timeout_cons env s skb rest hq]
  have h1 : (rto_transmitted env s skb).tsk.sk.state ≠ TCP_ESTABLISHED := by simpa using hst
  have h2 : (rto_transmitted env s skb).tsk.backoff ≤ env.TCP_CONN_RETRIES := by simpa using hb
  simp only [rto_rearm, hsyn, if_true]
  rw [tcp_connect_rto_backoff env _ h1 h2]
  simp

theorem rto_syn_timeout (env : Env) (s : State) (skb : sk_buff) (rest : List sk_buff)
    (hst : s.tsk.sk.state ≠ TCP_ESTABLISHED) (hq : s.tsk.sk.write_queue = skb :: rest)
    (hsyn : skb.th.syn = true) (hb : s.tsk.backoff > env.TCP_CONN_RETRIES) :
    tcp_retransmission_timeout env s
      = pthread_mutex_unlock (rto_fin env skb.th.fin
          (wait_wakeup (tcp_set_state
            { rto_transmitted env s skb with
              tsk := { (rto_transmitted env s skb).tsk with
                sk := { (rto_transmitted env s skb).tsk.sk with err := -env.ETIMEDOUT } } }
            TCP_CLOSE))) := by
  rw [tcp_retransmission_timeout_cons env s skb rest hq]
  have h1 : (rto_transmitted env s skb).tsk.sk.state ≠ TCP_ESTABLISHED := by simpa using hst
  have h2 : (rto_transmitted env s skb).tsk.backoff > env.TCP_CONN_RETRIES := by simpa using hb
  simp only [rto_rearm, hsyn, if_true]
  rw [tcp_connect_rto_timeout env _ h1 h2]

theorem fire_succ (env : Env) (n : Nat) :
    ∀ s : State, fire env (n + 1) s = tcp_retransmission_timeout env (fire env n s) := by
  induction n with
  | zero => intro s; rfl
  | succ n ih => intro s; exact ih (tcp_retransmission_timeout env s)

theorem tcp_connect_pending (env : Env) (iss : Nat) (s : State)
    (hst : s.tsk.sk.state = TCP_CLOSE) (hb : s.tsk.backoff = 0)
    (hq : s.tsk.sk.write_queue = []) (ht : s.timers = []) :
    syn_pending (tcp_connect env iss s).1 0 ∧
    armed (tcp_connect env iss s).1.trace = armed s.trace ++ [env.TCP_SYN_BACKOFF % 2 ^ 32] := by
  unfold syn_pending is_syn_segment
  simp [tcp_connect, tcp_send_syn, hst, hb, hq, ht, tcp_queue_transmit_skb, armed_append, armed,
    tcp_alloc_skb, alloc_skb, skb_reserve]

theorem syn_pending_step (env : Env) (s : State) (b : Nat) (h : syn_pending s b)
    (hb : b ≤ env.TCP_CONN_RETRIES) :
    syn_pending (tcp_retransmission_timeout env s) (b + 1) ∧
    armed (tcp_retransmission_timeout env s).trace
      = armed s.trace ++ [(env.TCP_SYN_BACKOFF <<< (b + 1)) % 2 ^ 32] := by
  obtain ⟨hst, hbk, ⟨skb, rest, hq, hsyn⟩, ⟨t, ht, hr⟩⟩ := h
  have hne : s.tsk.sk.state ≠ TCP_ESTABLISHED := by rw [hst]; decide
  rw [rto_syn_backoff env s skb rest hne hq hsyn.1 (by omega), hsyn.2, rto_fin_false]
  unfold syn_pending is_syn_segment
  simp [hst, hbk, hq, ht, hr, hsyn.1, hsyn.2, armed_append, armed, skb_reset_header]

theorem syn_pending_timeout (env : Env) (s : State) (b : Nat) (h : syn_pending s b)
    (hb : b > env.TCP_CONN_RETRIES) :
    (tcp_retransmission_timeout env s).tsk.sk.state = TCP_CLOSE ∧
    (tcp_retransmission_timeout env s).tsk.sk.err = -env.ETIMEDOUT ∧
    (tcp_retransmission_timeout env s).tsk.retransmit = none ∧
    (tcp_retransmission_timeout env s).timers = [] ∧
    armed (tcp_retransmission_timeout env s).trace = armed s.trace := by
  obtain ⟨hst, hbk, ⟨skb, rest, hq, hsyn⟩, ⟨t, ht, hr⟩⟩ := h
  have hne : s.tsk.sk.state ≠ TCP_ESTABLISHED := by rw [hst]; decide
  rw [rto_syn_timeout env s skb rest hne hq hsyn.1 (by omega), hsyn.2, rto_fin_false]
  simp [ht, hr, armed_append, armed]

theorem fire_pending (env : Env) (s : State) (h : syn_pending s 0) :
    ∀ k, k ≤ env.TCP_CONN_RETRIES + 1 →
      syn_pending (fire env k s) k ∧
      armed (fire env k s).trace
        = armed s.trace
          ++ (List.range k).map (fun i => (env.TCP_SYN_BACKOFF <<< (i + 1)) % 2 ^ 32) := by
  intro k
  induction k with
  | zero => intro _; exact ⟨h, by simp [fire]⟩
  | succ k ih =>
    intro hk
    obtain ⟨hp, ha⟩ := ih (by omega)
    obtain ⟨hp', ha'⟩ := syn_pending_step env (fire env k s) k hp (by omega)
    rw [fire_succ]
    refine ⟨hp', ?_⟩
    rw [ha', ha, List.range_succ, List.map_append]
    simp

/-- C8, as stated, fails: with retry ceiling 5 and base interval 500, after `tcp_connect` on a
CLOSED connection the sixth firing re-arms the timer (delay 32000) and leaves the connection
in SYN_SENT with no error; it is not closed. -/
theorem sixth_firing_rearms :
    env0.TCP_CONN_RETRIES = 5 ∧ env0.TCP_SYN_BACKOFF = 500 ∧
    armed (fire env0 5 connected).trace = [500, 1000, 2000, 4000, 8000, 16000] ∧
    armed (fire env0 6 connected).trace = [500, 1000, 2000, 4000, 8000, 16000, 32000] ∧
    (fire env0 6 connected).tsk.sk.state = TCP_SYN_SENT ∧
    (fire env0 6 connected).tsk.sk.err = 0 ∧
    (fire env0 6 connected).tsk.retransmit = some 6 ∧
    (fire env0 6 connected).timers = [{ id := 6, expires := 32000 }] := by
  refine ⟨?_, ?_, ?_, ?_, ?_, ?_, ?_, ?_⟩
  · decide
  · decide
  · decide
  · decide
  · decide
  · decide
  · decide
  · decide

/-- C8, amended: after `tcp_connect` on a CLOSED connection with backoff counter 0, an empty
write queue and no live timer, retry ceiling 5 and base interval `T` (with `64 * T` a 32-bit
value), the first six firings of the retransmission timer leave the connection in SYN_SENT
and re-arm the timer with delays `2T, 4T, 8T, 16T, 32T, 64T`; the seventh firing leaves the
connection in state CLOSE with the timed-out error, no timer handle, no live timer, and arms
nothing. -/
theorem connect_retry_schedule (env : Env) (iss : Nat) (s : State)
    (hc : env.TCP_CONN_RETRIES = 5) (hst : s.tsk.sk.state = TCP_CLOSE)
    (hb : s.tsk.backoff = 0) (hq : s.tsk.sk.write_queue = []) (ht : s.timers = [])
    (hT : env.TCP_SYN_BACKOFF * 64 < 2 ^ 32) :
    (∀ k, k ≤ 6 → (fire env k (tcp_connect env iss s).1).tsk.sk.state = TCP_SYN_SENT) ∧
    (∀ k, k < 6 →
      armed (fire env (k + 1) (tcp_connect env iss s).1).trace
        = armed (fire env k (tcp_connect env iss s).1).trace
            ++ [env.TCP_SYN_BACKOFF * 2 ^ (k + 1)]) ∧
    armed (fire env 6 (tcp_connect env iss s).1).trace
      = armed s.trace ++ [env.TCP_SYN_BACKOFF, env.TCP_SYN_BACKOFF * 2,
          env.TCP_SYN_BACKOFF * 4, env.TCP_SYN_BACKOFF * 8, env.TCP_SYN_BACKOFF * 16,
          env.TCP_SYN_BACKOFF * 32, env.TCP_SYN_BACKOFF * 64] ∧
    (fire env 7 (tcp_connect env iss s).1).tsk.sk.state = TCP_CLOSE ∧
    (fire env 7 (tcp_connect env iss s).1).tsk.sk.err = -env.ETIMEDOUT ∧
    (fire env 7 (tcp_connect env iss s).1).tsk.retransmit = none ∧
    (fire env 7 (tcp_connect env iss s).1).timers = [] ∧
    armed (fire env 7 (tcp_connect env iss s).1).trace
      = armed (fire env 6 (tcp_connect env iss s).1).trace := by
  obtain ⟨h0, a0⟩ := tcp_connect_pending env iss s hst hb hq ht
  have F := fire_pending env (tcp_connect env iss s).1 h0
  have hsh : ∀ i, i ≤ 6 → (env.TCP_SYN_BACKOFF <<< i) % 2 ^ 32 = env.TCP_SYN_BACKOFF * 2 ^ i := by
    intro i hi
    rw [Nat.shiftLeft_eq]
    apply Nat.mod_eq_of_lt
    interval_cases i <;> omega
  obtain ⟨t1, t2, t3, t4, t5⟩ :=
    syn_pending_timeout env (fire env 6 (tcp_connect env iss s).1) 6 (F 6 (by omega)).1
      (by omega)
  refine ⟨?_, ?_, ?_, ?_, ?_, ?_, ?_, ?_⟩
  · intro k hk
    exact (F k (by omega)).1.1
  · intro k hk
    rw [(F (k + 1) (by omega)).2, (F k (by omega)).2, List.range_succ, List.map_append,
      List.append_assoc]
    simp only [List.map_cons, List.map_nil, hsh (k + 1) (by omega)]
  · rw [(F 6 (by omega)).2, a0]
    have hr : List.range 6 = [0, 1, 2, 3, 4, 5] := by decide
    have e0 := hsh 0 (by omega)
    simp only [Nat.shiftLeft_zero, pow_zero, Nat.mul_one] at e0
    rw [hr, e0]
    simp only [List.map_cons, List.map_nil, hsh 1 (by omega), hsh 2 (by omega),
      hsh 3 (by omega), hsh 4 (by omega), hsh 5 (by omega), hsh 6 (by omega)]
    simp
  · rw [fire_succ]; exact t1
  · rw [fire_succ]; exact t2
  · rw [fire_succ]; exact t3
  · rw [fire_succ]; exact t4
  · rw [fire_succ]; exact t5

/-- C8 amended, at base interval 500 and `iss = 1000`: the delays armed are 500, then 1000,
2000, 4000, 8000, 16000, 32000 on six firings, and the seventh firing closes the connection
with error `-110`. -/
theorem connect_retry_schedule_witness :
    env0.TCP_CONN_RETRIES = 5 ∧ (conn TCP_CLOSE 0 0).tsk.sk.state = TCP_CLOSE ∧
    (conn TCP_CLOSE 0 0).tsk.backoff = 0 ∧ (conn TCP_CLOSE 0 0).tsk.sk.write_queue = [] ∧
    (conn TCP_CLOSE 0 0).timers = [] ∧ env0.TCP_SYN_BACKOFF * 64 < 2 ^ 32 ∧
    armed (fire env0 6 connected).trace
      = armed (conn TCP_CLOSE 0 0).trace ++ [env0.TCP_SYN_BACKOFF, env0.TCP_SYN_BACKOFF * 2,
          env0.TCP_SYN_BACKOFF * 4, env0.TCP_SYN_BACKOFF * 8, env0.TCP_SYN_BACKOFF * 16,
          env0.TCP_SYN_BACKOFF * 32, env0.TCP_SYN_BACKOFF * 64] ∧
    (fire env0 7 connected).tsk.sk.state = TCP_CLOSE ∧
    (fire env0 7 connected).tsk.sk.err = -110 ∧
    (fire env0 7 connected).tsk.retransmit = none ∧
    (fire env0 7 connected).timers = [] ∧
    armed (fire env0 7 connected).trace = [500, 1000, 2000, 4000, 8000, 16000, 32000] := by
  obtain ⟨_, _, h3, h4, h5, h6, h7, _⟩ :=
    connect_retry_schedule env0 1000 (conn TCP_CLOSE 0 0) (by decide) (by decide) (by decide)
      (by decide) (by decide) (by decide)
  exact ⟨by decide, by decide, by decide, by decide, by decide, by decide, h3, h4, h5, h6, h7,
    by decide⟩

/-- C9: for every connection that is not ESTABLISHED, has a segment carrying SYN at the head
of the write queue and has backoff counter `b` not above the retry ceiling, a
retransmission-timer firing increments the counter to `b + 1` and arms exactly one timer,
with delay `TCP_SYN_BACKOFF * 2 ^ (b + 1)` (assumed to be a 32-bit value); that delay is twice
`TCP_SYN_BACKOFF * 2 ^ b`, so it doubles, strictly increasing (for a positive base interval),
on each successive SYN retransmission. -/
theorem syn_backoff_delay (env : Env) (s : State) (skb : sk_buff) (rest : List sk_buff)
    (hst : s.tsk.sk.state ≠ TCP_ESTABLISHED) (hq : s.tsk.sk.write_queue = skb :: rest)
    (hsyn : skb.th.syn = true) (hb : s.tsk.backoff ≤ env.TCP_CONN_RETRIES)
    (hfit : env.TCP_SYN_BACKOFF * 2 ^ (s.tsk.backoff + 1) < 2 ^ 32) :
    (tcp_retransmission_timeout env s).tsk.backoff = s.tsk.backoff + 1 ∧
    armed (tcp_retransmission_timeout env s).trace
      = armed s.trace ++ [env.TCP_SYN_BACKOFF * 2 ^ (s.tsk.backoff + 1)] ∧
    (tcp_retransmission_timeout env s).tsk.retransmit = some s.next_timer ∧
    (tcp_retransmission_timeout env s).timers
      = s.timers.filter (fun t => some t.id != s.tsk.retransmit)
          ++ [{ id := s.next_timer, expires := env.TCP_SYN_BACKOFF * 2 ^ (s.tsk.backoff + 1) }] ∧
    env.TCP_SYN_BACKOFF * 2 ^ (s.tsk.backoff + 1)
      = 2 * (env.TCP_SYN_BACKOFF * 2 ^ s.tsk.backoff) ∧
    (0 < env.TCP_SYN_BACKOFF →
      env.TCP_SYN_BACKOFF * 2 ^ s.tsk.backoff
        < env.TCP_SYN_BACKOFF * 2 ^ (s.tsk.backoff + 1)) := by
  have hmod : (env.TCP_SYN_BACKOFF <<< (s.tsk.backoff + 1)) % 2 ^ 32
      = env.TCP_SYN_BACKOFF * 2 ^ (s.tsk.backoff + 1) := by
    rw [Nat.shiftLeft_eq]; exact Nat.mod_eq_of_lt hfit
  rw [rto_syn_backoff env s skb rest hst hq hsyn hb]
  refine ⟨?_, ?_, ?_, ?_, ?_, ?_⟩
  · simp
  · simp [armed_append, armed]
    exact hmod
  · simp
  · simp
    exact hmod
  · rw [pow_succ]; ring
  · intro hT
    have hp : 0 < 2 ^ s.tsk.backoff := Nat.pow_pos (by norm_num)
    rw [pow_succ]
    nlinarith


/-- C9 at the connection `connected` (backoff 0, base interval 500): the firing sets the
counter to 1 and arms one timer with delay 1000. -/
theorem syn_backoff_delay_witness :
    connected.tsk.sk.state ≠ TCP_ESTABLISHED ∧
    connected.tsk.sk.write_queue = syn_skb :: [] ∧
    syn_skb.th.syn = true ∧
    connected.tsk.backoff ≤ env0.TCP_CONN_RETRIES ∧
    env0.TCP_SYN_BACKOFF * 2 ^ (connected.tsk.backoff + 1) < 2 ^ 32 ∧
    (tcp_retransmission_timeout env0 connected).tsk.backoff = connected.tsk.backoff + 1 ∧
    armed (tcp_retransmission_timeout env0 connected).trace
      = armed connected.trace ++ [env0.TCP_SYN_BACKOFF * 2 ^ (connected.tsk.backoff + 1)] ∧
    armed (tcp_retransmission_timeout env0 connected).trace = [500, 1000] := by
  obtain ⟨h1, h2, _⟩ :=
    syn_backoff_delay env0 connected syn_skb [] (by decide) (by decide) (by decide) (by decide)
      (by decide)
  exact ⟨by decide, by decide, by decide, by decide, by decide, h1, h2, by decide⟩

/-- C10: for every connection that is not ESTABLISHED, has a SYN segment at the head of the
write queue and whose backoff counter is past the retry ceiling, a retransmission-timer firing
sets the connection error to `-ETIMEDOUT`, sets the state to CLOSE, wakes the waiter once,
leaves the backoff counter unchanged, clears the timer handle, arms no timer, and leaves
live only the timers that were live besides the one released. -/
theorem syn_timeout_close (env : Env) (s : State) (skb : sk_buff) (rest : List sk_buff)
    (hst : s.tsk.sk.state ≠ TCP_ESTABLISHED) (hq : s.tsk.sk.write_queue = skb :: rest)
    (hsyn : is_syn_segment skb) (hb : s.tsk.backoff > env.TCP_CONN_RETRIES) :
    (tcp_retransmission_timeout env s).tsk.sk.err = -env.ETIMEDOUT ∧
    (tcp_retransmission_timeout env s).tsk.sk.state = TCP_CLOSE ∧
    wakeups (tcp_retransmission_timeout env s).trace = wakeups s.trace + 1 ∧
    (tcp_retransmission_timeout env s).tsk.backoff = s.tsk.backoff ∧
    (tcp_retransmission_timeout env s).tsk.retransmit = none ∧
    armed (tcp_retransmission_timeout env s).trace = armed s.trace ∧
    (tcp_retransmission_timeout env s).timers
      = s.timers.filter (fun t => some t.id != s.tsk.retransmit) := by
  rw [rto_syn_timeout env s skb rest hst hq hsyn.1 hb, hsyn.2, rto_fin_false]
  simp [wakeups_append, wakeups, armed_append, armed]

/-- C10 at the connection `retries_spent` (backoff 6, ceiling 5): the firing closes the
connection with error `-110` and leaves no timer. -/
theorem syn_timeout_close_witness :
    retries_spent.tsk.sk.state ≠ TCP_ESTABLISHED ∧
    retries_spent.tsk.sk.write_queue = retries_spent_skb :: [] ∧
    is_syn_segment retries_spent_skb ∧
    retries_spent.tsk.backoff > env0.TCP_CONN_RETRIES ∧
    ((tcp_retransmission_timeout env0 retries_spent).tsk.sk.err = -env0.ETIMEDOUT ∧
      (tcp_retransmission_timeout env0 retries_spent).tsk.sk.state = TCP_CLOSE ∧
      wakeups (tcp_retransmission_timeout env0 retries_spent).trace
        = wakeups retries_spent.trace + 1 ∧
      (tcp_retransmission_timeout env0 retries_spent).tsk.backoff = retries_spent.tsk.backoff ∧
      (tcp_retransmission_timeout env0 retries_spent).tsk.retransmit = none ∧
      armed (tcp_retransmission_timeout env0 retries_spent).trace = armed retries_spent.trace ∧
      (tcp_retransmission_timeout env0 retries_spent).timers
        = retries_spent.timers.filter (fun t => some t.id != retries_spent.tsk.retransmit)) ∧
    (tcp_retransmission_timeout env0 retries_spent).timers = [] ∧
    (tcp_retransmission_timeout env0 retries_spent).tsk.backoff = 6 := by
  exact ⟨by decide, by decide, by decide, by decide,
    syn_timeout_close env0 retries_spent retries_spent_skb [] (by decide) (by decide)
      (by decide) (by decide), by decide, by decide⟩

/-! ## C11: `tcp_connect` -/

/-- C11: for every connection in state CLOSE, LISTEN or SYN_SENT and every 32-bit value `iss`
returned by the ISS generator, after `tcp_connect` the TCB has `snd_una = snd_up = iss`,
`snd_nxt = iss + 1` modulo `2 ^ 32`, `rcv_nxt = 0`, `seq = iss`, `snd_wnd = snd_wl1 = 0` and
`rcv_wnd = 29200`, the connection state is SYN_SENT, and exactly one segment, with SYN set
and sequence number `iss`, has been appended to the write queue and handed to the network
layer. -/
theorem tcp_connect_spec (env : Env) (iss : Nat) (s : State) (hiss : iss < 2 ^ 32)
    (hst : s.tsk.sk.state = TCP_CLOSE ∨ s.tsk.sk.state = TCP_LISTEN
      ∨ s.tsk.sk.state = TCP_SYN_SENT) :
    (tcp_connect env iss s).1.tsk.tcb.snd_una = iss ∧
    (tcp_connect env iss s).1.tsk.tcb.snd_up = iss ∧
    (tcp_connect env iss s).1.tsk.tcb.snd_nxt = (iss + 1) % 2 ^ 32 ∧
    (tcp_connect env iss s).1.tsk.tcb.rcv_nxt = 0 ∧
    (tcp_connect env iss s).1.tsk.tcb.seq = iss ∧
    (tcp_connect env iss s).1.tsk.tcb.snd_wnd = 0 ∧
    (tcp_connect env iss s).1.tsk.tcb.snd_wl1 = 0 ∧
    (tcp_connect env iss s).1.tsk.tcb.rcv_wnd = 29200 ∧
    (tcp_connect env iss s).1.tsk.sk.state = TCP_SYN_SENT ∧
    ∃ skb : sk_buff,
      (tcp_connect env iss s).1.tsk.sk.write_queue = s.tsk.sk.write_queue ++ [skb] ∧
      sent (tcp_connect env iss s).1.trace = sent s.trace ++ [skb] ∧
      skb.th.syn = true ∧ wire_seq skb = iss ∧ skb.seq = iss := by
  have hm : iss % 4294967296 = iss := Nat.mod_eq_of_lt hiss
  have hw : ntohl (htonl iss) = iss := ntohl_htonl iss hiss
  rcases hst with h | h | h <;>
  simp [tcp_connect, tcp_send_syn, h, tcp_queue_transmit_skb, sent_append, sent,
    tcp_alloc_skb, alloc_skb, skb_reserve, wire_seq, tcp_select_initial_window, hm, hw]

/-- C11 at `iss = 1000` on the CLOSED connection `conn TCP_CLOSE 0 0`: the TCB is
initialised around 1000 and one SYN with sequence number 1000 is queued and sent. -/
theorem tcp_connect_spec_witness :
    (1000 : Nat) < 2 ^ 32 ∧
    ((conn TCP_CLOSE 0 0).tsk.sk.state = TCP_CLOSE ∨ (conn TCP_CLOSE 0 0).tsk.sk.state = TCP_LISTEN
      ∨ (conn TCP_CLOSE 0 0).tsk.sk.state = TCP_SYN_SENT) ∧
    (connected.tsk.tcb.snd_una = 1000 ∧
      connected.tsk.tcb.snd_up = 1000 ∧
      connected.tsk.tcb.snd_nxt = (1000 + 1) % 2 ^ 32 ∧
      connected.tsk.tcb.rcv_nxt = 0 ∧
      connected.tsk.tcb.seq = 1000 ∧
      connected.tsk.tcb.snd_wnd = 0 ∧
      connected.tsk.tcb.snd_wl1 = 0 ∧
      connected.tsk.tcb.rcv_wnd = 29200 ∧
      connected.tsk.sk.state = TCP_SYN_SENT ∧
      ∃ skb : sk_buff,
        connected.tsk.sk.write_queue = (conn TCP_CLOSE 0 0).tsk.sk.write_queue ++ [skb] ∧
        sent connected.trace = sent (conn TCP_CLOSE 0 0).trace ++ [skb] ∧
        skb.th.syn = true ∧ wire_seq skb = 1000 ∧ skb.seq = 1000) ∧
    connected.tsk.tcb.snd_nxt = 1001 ∧
    (sent connected.trace).map (fun skb => (skb.th.syn, wire_seq skb)) = [(true, 1000)] := by
  refine ⟨by decide, by decide,
    tcp_connect_spec env0 1000 (conn TCP_CLOSE 0 0) (by decide) (by decide), ?_, ?_⟩
  · decide
  · decide

/-! ## C12: the delay armed by `tcp_connect` -/

theorem tcp_connect_armed (env : Env) (iss : Nat) (s : State) :
    armed (tcp_connect env iss s).1.trace
      = armed s.trace ++ [(env.TCP_SYN_BACKOFF <<< s.tsk.backoff) % 2 ^ 32] := by
  by_cases h : s.tsk.sk.state ≠ TCP_SYN_SENT ∧ s.tsk.sk.state ≠ TCP_CLOSE
      ∧ s.tsk.sk.state ≠ TCP_LISTEN
  · simp [tcp_connect, tcp_send_syn, h, armed_append, armed]
  · simp [tcp_connect, tcp_send_syn, h, tcp_queue_transmit_skb, armed_append, armed]

/-- C12, as stated, fails: with base interval 500 and backoff counter 2, `tcp_connect` arms
the timer with delay 2000, not 500. -/
theorem tcp_connect_delay_shifted :
    env0.TCP_SYN_BACKOFF = 500 ∧
    (conn_backoff TCP_CLOSE 2).tsk.backoff = 2 ∧
    armed (tcp_connect env0 1000 (conn_backoff TCP_CLOSE 2)).1.trace = [2000] := by
  refine ⟨?_, ?_, ?_⟩
  · decide
  · decide
  · decide

/-- C12, amended: for every connection, `tcp_connect` arms exactly one timer, with delay
`TCP_SYN_BACKOFF * 2 ^ backoff` for the value the backoff counter holds at the call (assumed
to be a 32-bit value); the delay is the base interval `TCP_SYN_BACKOFF` when the counter
is 0. -/
theorem tcp_connect_delay (env : Env) (iss : Nat) (s : State)
    (hfit : env.TCP_SYN_BACKOFF * 2 ^ s.tsk.backoff < 2 ^ 32) :
    armed (tcp_connect env iss s).1.trace
      = armed s.trace ++ [env.TCP_SYN_BACKOFF * 2 ^ s.tsk.backoff] ∧
    (s.tsk.backoff = 0 →
      armed (tcp_connect env iss s).1.trace = armed s.trace ++ [env.TCP_SYN_BACKOFF]) := by
  have hmod : (env.TCP_SYN_BACKOFF <<< s.tsk.backoff) % 2 ^ 32
      = env.TCP_SYN_BACKOFF * 2 ^ s.tsk.backoff := by
    rw [Nat.shiftLeft_eq]; exact Nat.mod_eq_of_lt hfit
  have h1 := tcp_connect_armed env iss s
  rw [hmod] at h1
  refine ⟨h1, ?_⟩
  intro hb
  rw [h1, hb, pow_zero, Nat.mul_one]

/-- C12 amended, at base interval 500: with backoff counter 0 the delay armed is 500. -/
theorem tcp_connect_delay_witness :
    env0.TCP_SYN_BACKOFF * 2 ^ (conn TCP_CLOSE 0 0).tsk.backoff < 2 ^ 32 ∧
    (conn TCP_CLOSE 0 0).tsk.backoff = 0 ∧
    armed (tcp_connect env0 1000 (conn TCP_CLOSE 0 0)).1.trace
      = armed (conn TCP_CLOSE 0 0).trace ++ [env0.TCP_SYN_BACKOFF] ∧
    armed (tcp_connect env0 1000 (conn TCP_CLOSE 0 0)).1.trace = [500] := by
  refine ⟨by decide, by decide,
    (tcp_connect_delay env0 1000 (conn TCP_CLOSE 0 0) (by decide)).2 (by decide), ?_⟩
  decide

/-! ## C13: state preconditions of the SYN and SYN-ACK senders -/

/-- C13: for every connection whose state is not CLOSE, LISTEN or SYN_SENT, `tcp_send_syn`
returns 1 and changes nothing, and `tcp_connect`, which reaches it, returns 1 with nothing
handed to the network layer, the write queue unchanged and the state unchanged; for every
connection whose state is not SYN_SENT, `tcp_send_synack` returns 1 and changes nothing. -/
theorem syn_synack_preconditions (env : Env) (iss : Nat) (s : State) :
    ((s.tsk.sk.state ≠ TCP_SYN_SENT ∧ s.tsk.sk.state ≠ TCP_CLOSE
        ∧ s.tsk.sk.state ≠ TCP_LISTEN) →
      tcp_send_syn env s = (s, 1) ∧
      (tcp_connect env iss s).2 = 1 ∧
      sent (tcp_connect env iss s).1.trace = sent s.trace ∧
      (tcp_connect env iss s).1.tsk.sk.write_queue = s.tsk.sk.write_queue ∧
      (tcp_connect env iss s).1.tsk.sk.state = s.tsk.sk.state) ∧
    (s.tsk.sk.state ≠ TCP_SYN_SENT → tcp_send_synack env s = (s, 1)) := by
  refine ⟨?_, ?_⟩
  · intro h
    simp [tcp_connect, tcp_send_syn, h, sent_append, sent]
  · intro h
    simp [tcp_send_synack, h]

/-- C13 on an ESTABLISHED connection: both senders fail with 1 and nothing is sent. -/
theorem syn_synack_preconditions_witness :
    ((conn TCP_ESTABLISHED 100 100).tsk.sk.state ≠ TCP_SYN_SENT
      ∧ (conn TCP_ESTABLISHED 100 100).tsk.sk.state ≠ TCP_CLOSE
      ∧ (conn TCP_ESTABLISHED 100 100).tsk.sk.state ≠ TCP_LISTEN) ∧
    (tcp_send_syn env0 (conn TCP_ESTABLISHED 100 100) = (conn TCP_ESTABLISHED 100 100, 1) ∧
      (tcp_connect env0 1000 (conn TCP_ESTABLISHED 100 100)).2 = 1 ∧
      sent (tcp_connect env0 1000 (conn TCP_ESTABLISHED 100 100)).1.trace
        = sent (conn TCP_ESTABLISHED 100 100).trace ∧
      (tcp_connect env0 1000 (conn TCP_ESTABLISHED 100 100)).1.tsk.sk.write_queue
        = (conn TCP_ESTABLISHED 100 100).tsk.sk.write_queue ∧
      (tcp_connect env0 1000 (conn TCP_ESTABLISHED 100 100)).1.tsk.sk.state
        = (conn TCP_ESTABLISHED 100 100).tsk.sk.state) ∧
    tcp_send_synack env0 (conn TCP_ESTABLISHED 100 100) = (conn TCP_ESTABLISHED 100 100, 1) := by
  obtain ⟨h1, h2⟩ := syn_synack_preconditions env0 1000 (conn TCP_ESTABLISHED 100 100)
  exact ⟨by decide, h1 (by decide), h2 (by decide)⟩

/-! ## C14: senders on a CLOSED connection -/

/-- C14, as stated, fails: on a connection in state CLOSE `tcp_send_finack` hands a FIN+ACK
segment to the network layer and returns the network layer's result (54 here), not 0. -/
theorem tcp_send_finack_closed_transmits :
    (conn TCP_CLOSE 0 0).tsk.sk.state = TCP_CLOSE ∧
    sent (conn TCP_CLOSE 0 0).trace = [] ∧
    (sent (tcp_send_finack env0 (conn TCP_CLOSE 0 0)).1.trace).map
      (fun skb => (skb.th.fin, skb.th.ack)) = [(true, true)] ∧
    (tcp_send_finack env0 (conn TCP_CLOSE 0 0)).2 = 54 := by
  refine ⟨?_, ?_, ?_, ?_⟩
  · decide
  · decide
  · decide
  · decide

/-- C14, amended: for every connection in state CLOSE, `tcp_send_ack` and `tcp_send_fin`
return 0 and are no-ops: the whole state (TCB, write queue, connection state, timers, trace
of calls to the collaborators) is unchanged. -/
theorem ack_fin_closed_noop (env : Env) (s : State) (h : s.tsk.sk.state = TCP_CLOSE) :
    tcp_send_ack env s = (s, 0) ∧ tcp_send_fin env s = (s, 0) := by
  simp [tcp_send_ack, tcp_send_fin, h]

/-- C14 amended, on the CLOSED connection `conn TCP_CLOSE 0 0`. -/
theorem ack_fin_closed_noop_witness :
    (conn TCP_CLOSE 0 0).tsk.sk.state = TCP_CLOSE ∧
    tcp_send_ack env0 (conn TCP_CLOSE 0 0) = (conn TCP_CLOSE 0 0, 0) ∧
    tcp_send_fin env0 (conn TCP_CLOSE 0 0) = (conn TCP_CLOSE 0 0, 0) :=
  ⟨by decide, ack_fin_closed_noop env0 (conn TCP_CLOSE 0 0) (by decide)⟩

/-! ## C15: the header written by `tcp_transmit_skb` -/

theorem mem16_swapped (a b : Nat) (ha : a < 256) (hb : b < 256) :
    mem16 (a * 256 + b) = [b, a] := by
  have h1 : (a * 256 + b) % 256 = b := by omega
  have h2 : (a * 256 + b) / 256 % 256 = a := by omega
  unfold mem16
  rw [h1, h2]

theorem be_read_mem16_htons (x : Nat) (h : x < 2 ^ 16) : be_read (mem16 (htons x)) = x := by
  have hx : x / 256 % 256 * 256 + x % 256 = x := by omega
  have e : htons x = x % 256 * 256 + x / 256 % 256 := rfl
  rw [e, mem16_swapped _ _ (Nat.mod_lt _ (by norm_num)) (Nat.mod_lt _ (by norm_num))]
  simp only [be_read, List.foldl]
  generalize x / 256 % 256 = p at hx ⊢
  generalize x % 256 = q at hx ⊢
  omega

theorem mem32_swapped (a b c d : Nat) (ha : a < 256) (hb : b < 256) (hc : c < 256)
    (hd : d < 256) :
    mem32 (a * 16777216 + b * 65536 + c * 256 + d) = [d, c, b, a] := by
  have h1 : (a * 16777216 + b * 65536 + c * 256 + d) % 256 = d := by omega
  have h2 : (a * 16777216 + b * 65536 + c * 256 + d) / 256 % 256 = c := by omega
  have h3 : (a * 16777216 + b * 65536 + c * 256 + d) / 65536 % 256 = b := by omega
  have h4 : (a * 16777216 + b * 65536 + c * 256 + d) / 16777216 % 256 = a := by omega
  unfold mem32
  rw [h1, h2, h3, h4]

theorem be_read_mem32_htonl (x : Nat) (h : x < 2 ^ 32) : be_read (mem32 (htonl x)) = x := by
  have hx : x % 256 + 256 * (x / 256 % 256) + 65536 * (x / 65536 % 256)
      + 16777216 * (x / 16777216 % 256) = x := by omega
  have e : htonl x = x % 256 * 16777216 + x / 256 % 256 * 65536 + x / 65536 % 256 * 256
      + x / 16777216 % 256 := rfl
  rw [e, mem32_swapped _ _ _ _ (Nat.mod_lt _ (by norm_num)) (Nat.mod_lt _ (by norm_num))
    (Nat.mod_lt _ (by norm_num)) (Nat.mod_lt _ (by norm_num))]
  simp only [be_read, List.foldl]
  generalize x / 16777216 % 256 = p at hx ⊢
  generalize x / 65536 % 256 = q at hx ⊢
  generalize x / 256 % 256 = r at hx ⊢
  generalize x % 256 = t at hx ⊢
  omega

theorem data_flags_at_tcp_hdr (env : Env) (skb : sk_buff)
    (h : skb.len = skb.dlen + env.TCP_HDR_LEN) : data_flags env skb = skb.th := by
  simp [data_flags, h]

theorem wire_view_tcp_fill_header (env : Env) (tsk : tcp_sock) (skb : sk_buff)
    (hsp : tsk.sk.sport < 2 ^ 16) (hdp : tsk.sk.dport < 2 ^ 16)
    (hseq : tsk.tcb.seq < 2 ^ 32) (hack : tsk.tcb.rcv_nxt < 2 ^ 32) :
    wire_view (tcp_fill_header env tsk skb)
      = { sport := tsk.sk.sport, dport := tsk.sk.dport, seq := tsk.tcb.seq,
          ack_seq := tsk.tcb.rcv_nxt, hl := 5, rsvd := 0,
          fin := (data_flags env (skb_push skb tsk.tcp_header_len)).fin,
          syn := (data_flags env (skb_push skb tsk.tcp_header_len)).syn,
          rst := (data_flags env (skb_push skb tsk.tcp_header_len)).rst,
          psh := (data_flags env (skb_push skb tsk.tcp_header_len)).psh,
          ack := (data_flags env (skb_push skb tsk.tcp_header_len)).ack,
          urg := (data_flags env (skb_push skb tsk.tcp_header_len)).urg,
          ece := (data_flags env (skb_push skb tsk.tcp_header_len)).ece,
          cwr := (data_flags env (skb_push skb tsk.tcp_header_len)).cwr,
          win := tsk.tcb.rcv_wnd % 2 ^ 16, urp := 0 } := by
  have h0 : be_read (mem16 (htons 0)) = 0 := by decide
  have hw : tsk.tcb.rcv_wnd % 2 ^ 16 < 2 ^ 16 := Nat.mod_lt _ (by norm_num)
  simp only [wire_view, tcp_fill_header, with_flags, be_read_mem16_htons _ hsp,
    be_read_mem16_htons _ hdp, be_read_mem32_htonl _ hseq, be_read_mem32_htonl _ hack,
    be_read_mem16_htons _ hw, h0]

/-- C15, as stated, fails in two ways.  With `rcv_wnd = 70000` the window field handed to
the network layer reads 4464 (`70000` modulo `2 ^ 16`), not 70000.  With header length 24,
`tcp_send_ack` sets ACK at `tcp_hdr(skb)` but the header at `skb->data`, the one handed to
the network layer, lies 4 bytes before it and carries ACK clear; likewise the buffer
`hello_skb`, already transmitted once and not reset, has ACK and PSH set at `tcp_hdr(skb)`
and goes out with both clear. -/
theorem wire_header_differs :
    (conn_wnd 70000).tsk.tcb.rcv_wnd = 70000 ∧
    (sent (tcp_transmit_skb env0 (conn_wnd 70000) (tcp_alloc_skb env0 0)).s.trace).map
      (fun skb => (wire_view skb).win) = [4464] ∧
    (conn_hl 24).tsk.tcp_header_len = 24 ∧
    (sent (tcp_send_ack env0 (conn_hl 24)).1.trace).map
      (fun skb => (skb.th.ack, (wire_view skb).ack)) = [(true, false)] ∧
    (hello_skb.len, hello_skb.dlen, hello_skb.th.ack, hello_skb.th.psh) = (25, 5, true, true) ∧
    (sent (tcp_transmit_skb env0 (conn_wnd 29200) hello_skb).s.trace).map
      (fun skb => ((wire_view skb).ack, (wire_view skb).psh)) = [(false, false)] := by
  refine ⟨?_, ?_, ?_, ?_, ?_, ?_⟩
  · decide
  · decide
  · decide
  · decide
  · decide
  · decide

/-- C15, amended: for every connection (ports 16-bit, `seq` and `rcv_nxt` 32-bit values) and
every segment, the header that `tcp_transmit_skb` hands to the network layer, read as
big-endian fields, carries source port `sport`, destination port `dport`, sequence number the
TCB cursor `seq`, acknowledgment number `rcv_nxt`, header length 5 words, reserved bits 0,
window `rcv_wnd` modulo `2 ^ 16` and urgent pointer 0; when that header lies at
`tcp_hdr(skb)`, that is when `len + tcp_header_len = dlen + TCP_HDR_LEN` (header length 20
on a fresh or reset buffer), it carries the flag bits exactly as the caller set them; the
segment's recorded range is `seq` to `seq + dlen` modulo `2 ^ 32`, and the function returns
the network layer's result unmodified. -/
theorem tcp_transmit_skb_header (env : Env) (s : State) (skb : sk_buff)
    (hsp : s.tsk.sk.sport < 2 ^ 16) (hdp : s.tsk.sk.dport < 2 ^ 16)
    (hseq : s.tsk.tcb.seq < 2 ^ 32) (hack : s.tsk.tcb.rcv_nxt < 2 ^ 32) :
    sent (tcp_transmit_skb env s skb).s.trace
      = sent s.trace ++ [(tcp_transmit_skb env s skb).skb] ∧
    (wire_view (tcp_transmit_skb env s skb).skb).sport = s.tsk.sk.sport ∧
    (wire_view (tcp_transmit_skb env s skb).skb).dport = s.tsk.sk.dport ∧
    (wire_view (tcp_transmit_skb env s skb).skb).seq = s.tsk.tcb.seq ∧
    (wire_view (tcp_transmit_skb env s skb).skb).ack_seq = s.tsk.tcb.rcv_nxt ∧
    (wire_view (tcp_transmit_skb env s skb).skb).hl = 5 ∧
    (wire_view (tcp_transmit_skb env s skb).skb).rsvd = 0 ∧
    (wire_view (tcp_transmit_skb env s skb).skb).win = s.tsk.tcb.rcv_wnd % 2 ^ 16 ∧
    (wire_view (tcp_transmit_skb env s skb).skb).urp = 0 ∧
    (skb.len + s.tsk.tcp_header_len = skb.dlen + env.TCP_HDR_LEN →
      (wire_view (tcp_transmit_skb env s skb).skb).fin = skb.th.fin ∧
      (wire_view (tcp_transmit_skb env s skb).skb).syn = skb.th.syn ∧
      (wire_view (tcp_transmit_skb env s skb).skb).rst = skb.th.rst ∧
      (wire_view (tcp_transmit_skb env s skb).skb).psh = skb.th.psh ∧
      (wire_view (tcp_transmit_skb env s skb).skb).ack = skb.th.ack ∧
      (wire_view (tcp_transmit_skb env s skb).skb).urg = skb.th.urg ∧
      (wire_view (tcp_transmit_skb env s skb).skb).ece = skb.th.ece ∧
      (wire_view (tcp_transmit_skb env s skb).skb).cwr = skb.th.cwr) ∧
    (tcp_transmit_skb env s skb).skb.seq = s.tsk.tcb.seq ∧
    (tcp_transmit_skb env s skb).skb.end_seq = (s.tsk.tcb.seq + skb.dlen) % 2 ^ 32 ∧
    results (tcp_transmit_skb env s skb).s.trace
      = results s.trace ++ [(tcp_transmit_skb env s skb).rc] ∧
    (tcp_transmit_skb env s skb).rc
      = env.ip_output s.tsk.sk (tcp_transmit_skb env s skb).skb := by
  have hv := wire_view_tcp_fill_header env s.tsk skb hsp hdp hseq hack
  rw [← tcp_transmit_skb_skb env s skb] at hv
  refine ⟨?_, ?_, ?_, ?_, ?_, ?_, ?_, ?_, ?_, ?_, ?_, ?_, ?_, ?_⟩
  · simp [sent_append, sent]
  · rw [hv]
  · rw [hv]
  · rw [hv]
  · rw [hv]
  · rw [hv]
  · rw [hv]
  · rw [hv]
  · rw [hv]
  · intro ha
    have hf : data_flags env (skb_push skb s.tsk.tcp_header_len) = skb.th :=
      data_flags_at_tcp_hdr env (skb_push skb s.tsk.tcp_header_len) ha
    rw [hv, hf]
    exact ⟨rfl, rfl, rfl, rfl, rfl, rfl, rfl, rfl⟩
  · simp
  · simp
  · simp [results_append, results]
  · simp

/-- C15 amended, on the connection `conn_wnd 29200` (header length 20) with the fresh buffer
`tcp_send` builds for "hello": ports 40000 and 80, sequence number 100, window 29200, ACK
and PSH set; the sequence number lies in memory as the bytes 0, 0, 0, 100 and the source
port as 156, 64. -/
theorem tcp_transmit_skb_header_witness :
    (conn_wnd 29200).tsk.sk.sport < 2 ^ 16 ∧ (conn_wnd 29200).tsk.sk.dport < 2 ^ 16 ∧
    (conn_wnd 29200).tsk.tcb.seq < 2 ^ 32 ∧ (conn_wnd 29200).tsk.tcb.rcv_nxt < 2 ^ 32 ∧
    hello_fresh.len + (conn_wnd 29200).tsk.tcp_header_len
      = hello_fresh.dlen + env0.TCP_HDR_LEN ∧
    ((wire_view (tcp_transmit_skb env0 (conn_wnd 29200) hello_fresh).skb).fin
        = hello_fresh.th.fin ∧
      (wire_view (tcp_transmit_skb env0 (conn_wnd 29200) hello_fresh).skb).syn
        = hello_fresh.th.syn ∧
      (wire_view (tcp_transmit_skb env0 (conn_wnd 29200) hello_fresh).skb).rst
        = hello_fresh.th.rst ∧
      (wire_view (tcp_transmit_skb env0 (conn_wnd 29200) hello_fresh).skb).psh
        = hello_fresh.th.psh ∧
      (wire_view (tcp_transmit_skb env0 (conn_wnd 29200) hello_fresh).skb).ack
        = hello_fresh.th.ack ∧
      (wire_view (tcp_transmit_skb env0 (conn_wnd 29200) hello_fresh).skb).urg
        = hello_fresh.th.urg ∧
      (wire_view (tcp_transmit_skb env0 (conn_wnd 29200) hello_fresh).skb).ece
        = hello_fresh.th.ece ∧
      (wire_view (tcp_transmit_skb env0 (conn_wnd 29200) hello_fresh).skb).cwr
        = hello_fresh.th.cwr) ∧
    wire_view (tcp_transmit_skb env0 (conn_wnd 29200) hello_fresh).skb
      = { sport := 40000, dport := 80, seq := 100, ack_seq := 0, hl := 5, rsvd := 0,
          fin := false, syn := false, rst := false, psh := true, ack := true, urg := false,
          ece := false, cwr := false, win := 29200, urp := 0 } ∧
    wire_view (tcp_transmit_skb env0 (conn_wnd 29200) (skb_reset_header hello_skb)).skb
      = { sport := 40000, dport := 80, seq := 100, ack_seq := 0, hl := 5, rsvd := 0,
          fin := false, syn := false, rst := false, psh := true, ack := true, urg := false,
          ece := false, cwr := false, win := 29200, urp := 0 } ∧
    mem32 (tcp_transmit_skb env0 (conn_wnd 29200) hello_fresh).skb.data_hdr.seq
      = [0, 0, 0, 100] ∧
    mem16 (tcp_transmit_skb env0 (conn_wnd 29200) hello_fresh).skb.data_hdr.sport
      = [156, 64] := by
  refine ⟨by decide, by decide, by decide, by decide, by decide,
    (tcp_transmit_skb_header env0 (conn_wnd 29200) hello_fresh (by decide) (by decide)
      (by decide) (by decide)).2.2.2.2.2.2.2.2.2.1 (by decide), ?_, ?_, ?_, ?_⟩
  · decide
  · decide
  · decide
  · decide

/-! ## C16: timer firing on an empty write queue -/

@[simp]
theorem tcp_notify_user_tsk (s : State) : (tcp_notify_user s).tsk = s.tsk := by
  unfold tcp_notify_user
  split <;> simp

@[simp]
theorem tcp_notify_user_timers (s : State) : (tcp_notify_user s).timers = s.timers := by
  unfold tcp_notify_user
  split <;> simp

@[simp]
theorem tcp_notify_user_next (s : State) : (tcp_notify_user s).next_timer = s.next_timer := by
  unfold tcp_notify_user
  split <;> simp

@[simp]
theorem tcp_notify_user_locked (s : State) : (tcp_notify_user s).locked = s.locked := by
  unfold tcp_notify_user
  split <;> simp

@[simp]
theorem tcp_notify_user_sent (s : State) : sent (tcp_notify_user s).trace = sent s.trace := by
  unfold tcp_notify_user
  split <;> simp [sent_append, sent]

@[simp]
theorem tcp_notify_user_armed (s : State) :
    armed (tcp_notify_user s).trace = armed s.trace := by
  unfold tcp_notify_user
  split <;> simp [armed_append, armed]

theorem tcp_notify_user_wakeups (s : State) :
    wakeups (tcp_notify_user s).trace
      = wakeups s.trace + (if s.tsk.sk.state = TCP_CLOSE_WAIT then 1 else 0) := by
  unfold tcp_notify_user
  split
  · next h => simp [wakeups_append, wakeups, h]
  · next h =>
    have hne : s.tsk.sk.state ≠ TCP_CLOSE_WAIT := fun e => h e
    simp [hne]

/-- C16, as stated, fails: on an ESTABLISHED connection with an empty write queue a timer
firing wakes nobody. -/
theorem rto_empty_no_wakeup :
    (conn TCP_ESTABLISHED 100 100).tsk.sk.write_queue = [] ∧
    wakeups (conn TCP_ESTABLISHED 100 100).trace = 0 ∧
    wakeups (tcp_retransmission_timeout env0 (conn TCP_ESTABLISHED 100 100)).trace = 0 ∧
    (tcp_retransmission_timeout env0 (conn TCP_ESTABLISHED 100 100)).trace
      = [Event.lock, Event.unlock] := by
  refine ⟨?_, ?_, ?_, ?_⟩
  · decide
  · decide
  · decide
  · decide

/-- C16, amended: for every connection whose write queue is empty, in every connection
state, a retransmission-timer firing releases the timer handle, hands nothing to the network
layer, arms no timer, leaves the TCB, the backoff counter, the connection state and the
(empty) write queue unchanged, and wakes the waiter exactly when the connection state is
CLOSE_WAIT. -/
theorem rto_empty_queue (env : Env) (s : State) (hq : s.tsk.sk.write_queue = []) :
    (tcp_retransmission_timeout env s).tsk.retransmit = none ∧
    (tcp_retransmission_timeout env s).timers
      = s.timers.filter (fun t => some t.id != s.tsk.retransmit) ∧
    sent (tcp_retransmission_timeout env s).trace = sent s.trace ∧
    armed (tcp_retransmission_timeout env s).trace = armed s.trace ∧
    (tcp_retransmission_timeout env s).tsk.tcb = s.tsk.tcb ∧
    (tcp_retransmission_timeout env s).tsk.backoff = s.tsk.backoff ∧
    (tcp_retransmission_timeout env s).tsk.sk.state = s.tsk.sk.state ∧
    (tcp_retransmission_timeout env s).tsk.sk.write_queue = [] ∧
    wakeups (tcp_retransmission_timeout env s).trace
      = wakeups s.trace + (if s.tsk.sk.state = TCP_CLOSE_WAIT then 1 else 0) := by
  rw [tcp_retransmission_timeout_nil env s hq]
  refine ⟨?_, ?_, ?_, ?_, ?_, ?_, ?_, ?_, ?_⟩
  · simp
  · simp
  · simp [sent_append, sent]
  · simp [armed_append, armed]
  · simp
  · simp
  · simp
  · simp [hq]
  · simp [wakeups_append, wakeups, tcp_notify_user_wakeups]

/-- C16 amended, on a connection in CLOSE_WAIT with an empty write queue: the firing wakes
the waiter once and sends nothing. -/
theorem rto_empty_queue_witness :
    (conn TCP_CLOSE_WAIT 100 100).tsk.sk.write_queue = [] ∧
    (tcp_retransmission_timeout env0 (conn TCP_CLOSE_WAIT 100 100)).tsk.retransmit = none ∧
    sent (tcp_retransmission_timeout env0 (conn TCP_CLOSE_WAIT 100 100)).trace
      = sent (conn TCP_CLOSE_WAIT 100 100).trace ∧
    wakeups (tcp_retransmission_timeout env0 (conn TCP_CLOSE_WAIT 100 100)).trace
      = wakeups (conn TCP_CLOSE_WAIT 100 100).trace
        + (if (conn TCP_CLOSE_WAIT 100 100).tsk.sk.state = TCP_CLOSE_WAIT then 1 else 0) ∧
    wakeups (tcp_retransmission_timeout env0 (conn TCP_CLOSE_WAIT 100 100)).trace = 1 := by
  obtain ⟨h1, _, h3, _, _, _, _, _, h9⟩ :=
    rto_empty_queue env0 (conn TCP_CLOSE_WAIT 100 100) (by decide)
  exact ⟨by decide, h1, h3, h9, by decide⟩

/-! ## C17: `tcp_queue_transmit_skb` -/

/-- C17: for every connection and segment, `tcp_queue_transmit_skb` leaves the existing
write-queue entries and their order unchanged and places the segment last, hands that
segment to the network layer exactly once, and returns exactly the value the transmitter
returned, which is the network layer's result whatever it is. -/
theorem tcp_queue_transmit_skb_spec (env : Env) (s : State) (skb : sk_buff) :
    ∃ (skb' : sk_buff) (rc : Int),
      (tcp_queue_transmit_skb env s skb).1.tsk.sk.write_queue
        = s.tsk.sk.write_queue ++ [skb'] ∧
      sent (tcp_queue_transmit_skb env s skb).1.trace = sent s.trace ++ [skb'] ∧
      results (tcp_queue_transmit_skb env s skb).1.trace = results s.trace ++ [rc] ∧
      skb'.payload = skb.payload ∧ skb'.dlen = skb.dlen ∧
      skb'.th.syn = skb.th.syn ∧ skb'.th.fin = skb.th.fin ∧ skb'.th.ack = skb.th.ack ∧
      skb'.th.psh = skb.th.psh ∧ skb'.th.rst = skb.th.rst ∧
      (tcp_queue_transmit_skb env s skb).2 = rc ∧
      (tcp_queue_transmit_skb env s skb).2
        = (tcp_transmit_skb env (skb_queue_tail (pthread_mutex_lock s) skb) skb).rc := by
  simp [tcp_queue_transmit_skb, sent_append, sent, results_append, results]

/-- C17 with a network layer that rejects every buffer: the segment is queued last and the
error `-1` is returned as it is. -/
theorem tcp_queue_transmit_skb_spec_witness :
    (tcp_queue_transmit_skb env_down hello_sent (tcp_alloc_skb env_down 0)).2 = -1 ∧
    queue_view (tcp_queue_transmit_skb env_down hello_sent
        (tcp_alloc_skb env_down 0)).1.tsk.sk.write_queue
      = queue_view hello_sent.tsk.sk.write_queue ++ [(false, false, false, 0, [])] ∧
    (tcp_queue_transmit_skb env_down hello_sent (tcp_alloc_skb env_down 0)).2
      = (tcp_transmit_skb env_down
          (skb_queue_tail (pthread_mutex_lock hello_sent) (tcp_alloc_skb env_down 0))
          (tcp_alloc_skb env_down 0)).rc := by
  obtain ⟨_, _, _, _, _, _, _, _, _, _, _, _, _, h⟩ :=
    tcp_queue_transmit_skb_spec env_down hello_sent (tcp_alloc_skb env_down 0)
  exact ⟨by decide, by decide, h⟩

/-! ## C18: retransmission of a head segment that is not a SYN -/

/-- C18: for every connection whose write queue is non-empty and whose head segment does not
carry SYN, a retransmission-timer firing hands the head segment, and no other, to the
network layer, leaves the write queue with the same segments in the same order (the head
buffer, re-stamped by the transmitter, keeps its payload and flags; the segments behind it
are untouched), leaves the backoff counter unchanged, and arms exactly one timer, with the
fixed delay 500, to which the timer handle then refers. -/
theorem rto_data_head (env : Env) (s : State) (skb : sk_buff) (rest : List sk_buff)
    (hq : s.tsk.sk.write_queue = skb :: rest) (hsyn : skb.th.syn = false) :
    ∃ skb' : sk_buff,
      sent (tcp_retransmission_timeout env s).trace = sent s.trace ++ [skb'] ∧
      (tcp_retransmission_timeout env s).tsk.sk.write_queue = skb' :: rest ∧
      skb'.payload = skb.payload ∧ skb'.dlen = skb.dlen ∧
      skb'.th.syn = skb.th.syn ∧ skb'.th.fin = skb.th.fin ∧ skb'.th.ack = skb.th.ack ∧
      skb'.th.psh = skb.th.psh ∧ skb'.th.rst = skb.th.rst ∧
      (tcp_retransmission_timeout env s).tsk.backoff = s.tsk.backoff ∧
      armed (tcp_retransmission_timeout env s).trace = armed s.trace ++ [500] ∧
      (tcp_retransmission_timeout env s).tsk.retransmit = some s.next_timer ∧
      (tcp_retransmission_timeout env s).timers
        = s.timers.filter (fun t => some t.id != s.tsk.retransmit)
            ++ [{ id := s.next_timer, expires := 500 }] := by
  refine ⟨tcp_fill_header env { s.tsk with retransmit := none } (skb_reset_header skb),
    ?_, ?_, ?_, ?_, ?_, ?_, ?_, ?_, ?_, ?_, ?_, ?_, ?_⟩
  all_goals try rw [tcp_retransmission_timeout_cons env s skb rest hq]
  · simp [sent_append, sent]
  · simp [hq]
  · simp [skb_reset_header]
  · simp [skb_reset_header]
  · simp [skb_reset_header]
  · simp [skb_reset_header]
  · simp [skb_reset_header]
  · simp [skb_reset_header]
  · simp [skb_reset_header]
  · simp [rto_rearm, hsyn]
  · simp [rto_rearm, hsyn, armed_append, armed]
  · simp [rto_rearm, hsyn]
  · simp [rto_rearm, hsyn]

/-- C18 at the connection that has "hello" queued: the firing retransmits "hello", keeps
the queue, and arms one timer with delay 500. -/
theorem rto_data_head_witness :
    hello_sent.tsk.sk.write_queue = hello_skb :: [] ∧ hello_skb.th.syn = false ∧
    (∃ skb' : sk_buff,
      sent (tcp_retransmission_timeout env0 hello_sent).trace
        = sent hello_sent.trace ++ [skb'] ∧
      (tcp_retransmission_timeout env0 hello_sent).tsk.sk.write_queue = skb' :: [] ∧
      skb'.payload = hello_skb.payload ∧ skb'.dlen = hello_skb.dlen ∧
      skb'.th.syn = hello_skb.th.syn ∧ skb'.th.fin = hello_skb.th.fin ∧
      skb'.th.ack = hello_skb.th.ack ∧
      skb'.th.psh = hello_skb.th.psh ∧ skb'.th.rst = hello_skb.th.rst ∧
      (tcp_retransmission_timeout env0 hello_sent).tsk.backoff = hello_sent.tsk.backoff ∧
      armed (tcp_retransmission_timeout env0 hello_sent).trace
        = armed hello_sent.trace ++ [500] ∧
      (tcp_retransmission_timeout env0 hello_sent).tsk.retransmit
        = some hello_sent.next_timer ∧
      (tcp_retransmission_timeout env0 hello_sent).timers
        = hello_sent.timers.filter (fun t => some t.id != hello_sent.tsk.retransmit)
            ++ [{ id := hello_sent.next_timer, expires := 500 }]) ∧
    (sent (tcp_retransmission_timeout env0 hello_sent).trace).map (fun skb => skb.payload)
      = [hello, hello] ∧
    (tcp_retransmission_timeout env0 hello_sent).timers = [{ id := 1, expires := 500 }] := by
  refine ⟨by decide, by decide,
    rto_data_head env0 hello_sent hello_skb [] (by decide) (by decide), ?_, ?_⟩
  · decide
  · decide

/-! ## C20: SYN still at the head of an ESTABLISHED connection -/

/-- C20: for every ESTABLISHED connection whose write-queue head is a SYN segment, a
retransmission-timer firing hands that head segment to the network layer, leaves the backoff
counter, the error field and the connection state unchanged, and ends with the timer handle
cleared and no timer armed, whatever segments are queued behind the head. -/
theorem rto_syn_established (env : Env) (s : State) (skb : sk_buff) (rest : List sk_buff)
    (hst : s.tsk.sk.state = TCP_ESTABLISHED) (hq : s.tsk.sk.write_queue = skb :: rest)
    (hsyn : is_syn_segment skb) :
    ∃ skb' : sk_buff,
      sent (tcp_retransmission_timeout env s).trace = sent s.trace ++ [skb'] ∧
      (tcp_retransmission_timeout env s).tsk.sk.write_queue = skb' :: rest ∧
      skb'.th.syn = true ∧ skb'.payload = skb.payload ∧
      (tcp_retransmission_timeout env s).tsk.backoff = s.tsk.backoff ∧
      (tcp_retransmission_timeout env s).tsk.sk.err = s.tsk.sk.err ∧
      (tcp_retransmission_timeout env s).tsk.sk.state = s.tsk.sk.state ∧
      (tcp_retransmission_timeout env s).tsk.retransmit = none ∧
      armed (tcp_retransmission_timeout env s).trace = armed s.trace ∧
      (tcp_retransmission_timeout env s).timers
        = s.timers.filter (fun t => some t.id != s.tsk.retransmit) := by
  have he : (rto_transmitted env s skb).tsk.sk.state = TCP_ESTABLISHED := by simpa using hst
  have hr : rto_rearm env skb.th.syn (rto_transmitted env s skb) = rto_transmitted env s skb := by
    simp only [rto_rearm, hsyn.1, if_true]
    exact tcp_connect_rto_established env _ he
  refine ⟨tcp_fill_header env { s.tsk with retransmit := none } (skb_reset_header skb),
    ?_, ?_, ?_, ?_, ?_, ?_, ?_, ?_, ?_, ?_⟩
  all_goals try rw [tcp_retransmission_timeout_cons env s skb rest hq, hr, hsyn.2, rto_fin_false]
  · simp [sent_append, sent]
  · simp [hq]
  · simp [skb_reset_header, hsyn.1]
  · simp [skb_reset_header]
  · simp
  · simp
  · simp
  · simp
  · simp [armed_append, armed]
  · simp

/-- C20 at the connection `established_syn_data`, ESTABLISHED with the SYN at the head of
the write queue and "hello" queued behind it: the firing retransmits the SYN only and leaves
no timer. -/
theorem rto_syn_established_witness :
    established_syn_data.tsk.sk.state = TCP_ESTABLISHED ∧
    established_syn_data.tsk.sk.write_queue
      = established_syn_data.tsk.sk.write_queue.headD (tcp_alloc_skb env0 0)
        :: established_syn_data.tsk.sk.write_queue.tail ∧
    is_syn_segment (established_syn_data.tsk.sk.write_queue.headD (tcp_alloc_skb env0 0)) ∧
    established_syn_data.tsk.sk.write_queue.tail.length = 1 ∧
    (∃ skb' : sk_buff,
      sent (tcp_retransmission_timeout env0 established_syn_data).trace
        = sent established_syn_data.trace ++ [skb'] ∧
      (tcp_retransmission_timeout env0 established_syn_data).tsk.sk.write_queue
        = skb' :: established_syn_data.tsk.sk.write_queue.tail ∧
      skb'.th.syn = true ∧
      skb'.payload
        = (established_syn_data.tsk.sk.write_queue.headD (tcp_alloc_skb env0 0)).payload ∧
      (tcp_retransmission_timeout env0 established_syn_data).tsk.backoff
        = established_syn_data.tsk.backoff ∧
      (tcp_retransmission_timeout env0 established_syn_data).tsk.sk.err
        = established_syn_data.tsk.sk.err ∧
      (tcp_retransmission_timeout env0 established_syn_data).tsk.sk.state
        = established_syn_data.tsk.sk.state ∧
      (tcp_retransmission_timeout env0 established_syn_data).tsk.retransmit = none ∧
      armed (tcp_retransmission_timeout env0 established_syn_data).trace
        = armed established_syn_data.trace ∧
      (tcp_retransmission_timeout env0 established_syn_data).timers
        = established_syn_data.timers.filter
            (fun t => some t.id != established_syn_data.tsk.retransmit)) ∧
    (tcp_retransmission_timeout env0 established_syn_data).tsk.retransmit = none ∧
    queue_view (tcp_retransmission_timeout env0 established_syn_data).tsk.sk.write_queue
      = [(true, false, false, 0, []), (false, false, true, 5, hello)] := by
  refine ⟨by decide, by decide, by decide, by decide,
    rto_syn_established env0 established_syn_data _ _ (by decide) (by decide) (by decide),
    ?_, ?_⟩
  · decide
  · decide

/-! ## C19: the write-queue lock -/

theorem lock_free_nil : lock_free [] := by simp [lock_free]

theorem lock_free_append (a b : List Event) (ha : lock_free a) (hb : lock_free b) :
    lock_free (a ++ b) := by
  unfold lock_free at *
  simp [ha.1, ha.2, hb.1, hb.2]

theorem lock_check_free (m : List Event) :
    ∀ r : List Event, lock_free m → lock_check true (m ++ r) = lock_check true r := by
  induction m with
  | nil => intro r _; rfl
  | cons e es ih =>
    intro r h
    have hes : lock_free es := by
      unfold lock_free at *
      exact ⟨fun hm => h.1 (List.mem_cons_of_mem _ hm), fun hm => h.2 (List.mem_cons_of_mem _ hm)⟩
    cases e with
    | lock => exact absurd (List.mem_cons_self _ _) h.1
    | unlock => exact absurd (List.mem_cons_self _ _) h.2
    | queue_tail k => simpa [lock_check] using ih r hes
    | ip_output k rc => simpa [lock_check] using ih r hes
    | timer_add t => simpa [lock_check] using ih r hes
    | timer_release i => simpa [lock_check] using ih r hes
    | wait_wakeup => simpa [lock_check] using ih r hes
    | handle_fin_state => simpa [lock_check] using ih r hes

theorem quiet_steps_refl (s : State) : quiet_steps s s :=
  ⟨[], (List.append_nil _).symm, lock_free_nil⟩

theorem quiet_steps_same (s s' : State) (h : s'.trace = s.trace) : quiet_steps s s' :=
  ⟨[], by rw [h, List.append_nil], lock_free_nil⟩

theorem quiet_steps_event (s s' : State) (e : Event) (h : s'.trace = s.trace ++ [e])
    (h1 : e ≠ Event.lock) (h2 : e ≠ Event.unlock) : quiet_steps s s' := by
  refine ⟨[e], h, ?_⟩
  unfold lock_free
  simp only [List.mem_singleton]
  exact ⟨fun c => h1 c.symm, fun c => h2 c.symm⟩

theorem quiet_steps_trans (a b c : State) (h1 : quiet_steps a b) (h2 : quiet_steps b c) :
    quiet_steps a c := by
  obtain ⟨x, hx, hxf⟩ := h1
  obtain ⟨y, hy, hyf⟩ := h2
  exact ⟨x ++ y, by rw [hy, hx, List.append_assoc], lock_free_append x y hxf hyf⟩

theorem holds_lock_once_mid (s m : State) (h : s.locked = false)
    (hm : quiet_steps (pthread_mutex_lock s) m) :
    holds_lock_once s (pthread_mutex_unlock m) := by
  obtain ⟨x, hx, hxf⟩ := hm
  refine ⟨Event.lock :: (x ++ [Event.unlock]), ?_, ?_, ?_, rfl⟩
  · simp [hx]
  · rw [h]
    simp only [lock_check, Bool.false_eq_true, if_false]
    rw [lock_check_free x _ hxf]
    simp [lock_check]
  · have h0 : x.count Event.lock = 0 := List.count_eq_zero.2 hxf.1
    simp [List.count_cons, List.count_append, h0]

theorem quiet_tcp_release_rto_timer (s : State) : quiet_steps s (tcp_release_rto_timer s) := by
  refine ⟨_, tcp_release_rto_timer_trace s, ?_⟩
  cases s.tsk.retransmit <;> simp [lock_free]

theorem quiet_tcp_notify_user (s : State) : quiet_steps s (tcp_notify_user s) := by
  unfold tcp_notify_user
  split
  · exact quiet_steps_event _ _ Event.wait_wakeup rfl (by decide) (by decide)
  · exact quiet_steps_refl s

theorem quiet_arm_retransmit (s : State) (d : Nat) : quiet_steps s (arm_retransmit s d) :=
  quiet_steps_event _ _ _ (arm_retransmit_trace s d) (by simp) (by simp)

theorem quiet_tcp_transmit_skb (env : Env) (s : State) (skb : sk_buff) :
    quiet_steps s (tcp_transmit_skb env s skb).s :=
  quiet_steps_event _ _ _ (tcp_transmit_skb_trace env s skb) (by simp) (by simp)

theorem quiet_skb_queue_tail (s : State) (skb : sk_buff) :
    quiet_steps s (skb_queue_tail s skb) :=
  quiet_steps_event _ _ _ (skb_queue_tail_trace s skb) (by simp) (by simp)

theorem quiet_tcp_handle_fin_state (env : Env) (s : State) :
    quiet_steps s (tcp_handle_fin_state env s) :=
  quiet_steps_event _ _ _ (tcp_handle_fin_state_trace env s) (by simp) (by simp)

theorem quiet_tcp_connect_rto (env : Env) (s : State) :
    quiet_steps s (tcp_connect_rto env s) := by
  unfold tcp_connect_rto
  split_ifs
  · exact quiet_steps_event _ _ Event.wait_wakeup rfl (by decide) (by decide)
  · exact quiet_steps_trans _ _ _ (quiet_steps_same s _ rfl) (quiet_arm_retransmit _ _)
  · exact quiet_steps_refl s

theorem quiet_rto_rearm (env : Env) (syn : Bool) (s : State) :
    quiet_steps s (rto_rearm env syn s) := by
  unfold rto_rearm
  split_ifs
  · exact quiet_tcp_connect_rto env s
  · exact quiet_arm_retransmit s 500

theorem quiet_rto_fin (env : Env) (fin : Bool) (s : State) :
    quiet_steps s (rto_fin env fin s) := by
  unfold rto_fin
  split_ifs
  · exact quiet_tcp_handle_fin_state env s
  · exact quiet_steps_refl s

theorem quiet_rto_transmitted (env : Env) (s : State) (skb : sk_buff) :
    quiet_steps (pthread_mutex_lock s) (rto_transmitted env s skb) := by
  unfold rto_transmitted
  exact quiet_steps_trans _ _ _ (quiet_tcp_release_rto_timer _)
    (quiet_steps_trans _ _ _ (quiet_tcp_transmit_skb env _ _) (quiet_steps_same _ _ rfl))

theorem tcp_queue_transmit_skb_lock (env : Env) (s : State) (skb : sk_buff)
    (h : s.locked = false) : holds_lock_once s (tcp_queue_transmit_skb env s skb).1 := by
  have e : (tcp_queue_transmit_skb env s skb).1
      = pthread_mutex_unlock
          (store_tail (tcp_transmit_skb env (skb_queue_tail (pthread_mutex_lock s) skb) skb).s
            (tcp_transmit_skb env (skb_queue_tail (pthread_mutex_lock s) skb) skb).skb) := rfl
  rw [e]
  exact holds_lock_once_mid s _ h
    (quiet_steps_trans _ _ _ (quiet_skb_queue_tail _ skb)
      (quiet_steps_trans _ _ _ (quiet_tcp_transmit_skb env _ skb) (quiet_steps_same _ _ rfl)))

theorem tcp_queue_fin_lock (env : Env) (s : State) (h : s.locked = false) :
    holds_lock_once s (tcp_queue_fin env s).1 := by
  by_cases hq : s.tsk.sk.write_queue.isEmpty = true
  · have e : (tcp_queue_fin env s).1 = pthread_mutex_unlock (queue_fin_ready env s) := by
      simp only [tcp_queue_fin, pthread_mutex_lock_tsk, hq, if_true]
      rfl
    rw [e]
    refine holds_lock_once_mid s _ h ?_
    unfold queue_fin_ready
    exact quiet_steps_trans _ _ _ (quiet_skb_queue_tail _ _)
      (quiet_steps_trans _ _ _ (quiet_tcp_release_rto_timer _)
        (quiet_steps_trans _ _ _ (quiet_arm_retransmit _ 500)
          (quiet_steps_trans _ _ _ (quiet_steps_same _ _ rfl)
            (quiet_steps_trans _ _ _ (quiet_tcp_transmit_skb env _ _)
              (quiet_steps_trans _ _ _ (quiet_steps_same _ _ rfl)
                (quiet_tcp_handle_fin_state env _))))))
  · have e : (tcp_queue_fin env s).1
        = pthread_mutex_unlock (skb_queue_tail (pthread_mutex_lock s)
            { tcp_alloc_skb env 0 with
              th := { (tcp_alloc_skb env 0).th with fin := true, ack := true } }) := by
      simp only [tcp_queue_fin, pthread_mutex_lock_tsk, hq, if_false]
      rfl
    rw [e]
    exact holds_lock_once_mid s _ h (quiet_skb_queue_tail _ _)

theorem tcp_retransmission_timeout_lock (env : Env) (s : State) (h : s.locked = false) :
    holds_lock_once s (tcp_retransmission_timeout env s) := by
  cases hq : s.tsk.sk.write_queue with
  | nil =>
    rw [tcp_retransmission_timeout_nil env s hq]
    exact holds_lock_once_mid s _ h
      (quiet_steps_trans _ _ _ (quiet_tcp_release_rto_timer _) (quiet_tcp_notify_user _))
  | cons skb rest =>
    rw [tcp_retransmission_timeout_cons env s skb rest hq]
    exact holds_lock_once_mid s _ h
      (quiet_steps_trans _ _ _ (quiet_rto_transmitted env s skb)
        (quiet_steps_trans _ _ _ (quiet_rto_rearm env _ _) (quiet_rto_fin env _ _)))

/-- C19: with the write-queue lock as explicit state and free at the call, each of
`tcp_queue_transmit_skb`, `tcp_queue_fin` and `tcp_retransmission_timeout` takes the lock
exactly once, while it is free, makes every queue insertion and every transmission while
holding it, and has released it when it returns, on every path (the empty-queue exit of the
timeout included). -/
theorem lock_discipline (env : Env) (s : State) (skb : sk_buff) (h : s.locked = false) :
    holds_lock_once s (tcp_queue_transmit_skb env s skb).1 ∧
    holds_lock_once s (tcp_queue_fin env s).1 ∧
    holds_lock_once s (tcp_retransmission_timeout env s) :=
  ⟨tcp_queue_transmit_skb_lock env s skb h, tcp_queue_fin_lock env s h,
    tcp_retransmission_timeout_lock env s h⟩

/-- C19 at the connection that has "hello" queued, and the lock events of the timeout on
an empty and on a non-empty queue; an insertion with the lock free is rejected by the
check. -/
theorem lock_discipline_witness :
    hello_sent.locked = false ∧
    (holds_lock_once hello_sent (tcp_queue_transmit_skb env0 hello_sent hello_skb).1 ∧
      holds_lock_once hello_sent (tcp_queue_fin env0 hello_sent).1 ∧
      holds_lock_once hello_sent (tcp_retransmission_timeout env0 hello_sent)) ∧
    lock_check false
      ((tcp_retransmission_timeout env0 hello_sent).trace.drop hello_sent.trace.length)
      = some false ∧
    (tcp_retransmission_timeout env0 (conn TCP_ESTABLISHED 100 100)).trace
      = [Event.lock, Event.unlock] ∧
    lock_check false [Event.queue_tail hello_skb] = none := by
  refine ⟨by decide, lock_discipline env0 hello_sent hello_skb (by decide), ?_, ?_, ?_⟩
  · decide
  · decide
  · decide

end LevelIp
